import Mathlib

set_option maxRecDepth 100000
set_option exponentiation.threshold 2000

/-!
Verification of the excel-transformer core (src/backend/app.py) against its
natural-language specification.

The Python source is shallowly embedded.  Spreadsheet cells are modeled as
`Option String`: `none` stands for a missing value (pandas NaN or Python
None), `some s` for the string Python `str` renders for the cell; a frame
is a list of column labels plus rows of cells.  Python machine floats are
modeled exactly, as rationals together with explicit infinity and NaN
markers mirroring `float(...)`.  The remote geocoder (geopy GoogleV3) is an
injected deterministic function that may signal an exception; file reading
is outside the modeled fragment, so a workbook enters the model as the
frames pandas produced for its sheets.
-/

namespace ET

/-- Cell of a spreadsheet: `none` models a missing value (NaN / None). -/
abbrev Cell := Option String

/-- Python str() of a cell as used by the pipeline; a missing cell renders
as the non-matching token "nan" (str of float nan).  The pipeline never
distinguishes str(None) = "None" from str(nan) = "nan" in a way that
changes behaviour, so both are rendered "nan" here. -/
def pyStr (c : Cell) : String :=
  match c with
  | none => "nan"
  | some s => s

/-- Python truthiness check used where code writes `if pd.notna(x)`. -/
def notna (c : Cell) : Bool :=
  c.isSome

/-- Substring containment, Python `pat in s`. -/
def listInfix (pat s : List Char) : Bool :=
  match s with
  | [] => pat.isEmpty
  | _ :: t => pat.isPrefixOf s || listInfix pat t

/-- Python `pat in s` on strings. -/
def strContains (s pat : String) : Bool :=
  listInfix pat.toList s.toList

/-- Python str.lower over the characters (the data is ASCII). -/
def pyLower (s : String) : String :=
  String.mk (s.toList.map Char.toLower)

/-- Python str.upper over the characters. -/
def pyUpper (s : String) : String :=
  String.mk (s.toList.map Char.toUpper)

/-- Python str.strip: leading and trailing whitespace removed. -/
def pyStrip (s : String) : String :=
  String.mk
    (((s.toList.dropWhile Char.isWhitespace).reverse.dropWhile Char.isWhitespace).reverse)

/-- Case-insensitive containment (used where re.IGNORECASE searches for a
plain word). -/
def strContainsCI (s pat : String) : Bool :=
  strContains (pyLower s) (pyLower pat)

/-- Word character of the regex \w class (ASCII range, as the data is). -/
def isWordChar (c : Char) : Bool :=
  c.isAlpha || c.isDigit || c == '_'

/-- Collapse every run of whitespace to a single space, re.sub with a
whitespace-class pattern and a single space replacement. -/
def collapseWS (s : String) : String :=
  let rec go : List Char → Bool → List Char
    | [], _ => []
    | c :: t, lastWasWS =>
      if c.isWhitespace then
        if lastWasWS then go t true else ' ' :: go t true
      else c :: go t false
  String.mk (go s.toList false)

/-- Count of leading characters satisfying p. -/
def leadCount (p : Char → Bool) : List Char → Nat
  | [] => 0
  | c :: t => if p c then leadCount p t + 1 else 0

/-- Python str.zfill / the 0-padding of an 06d format: pad with zeros to
width w, keeping a leading sign in front of the zeros. -/
def zfill (s : String) (w : Nat) : String :=
  match s.toList with
  | '-' :: t => "-" ++ String.mk (List.replicate (w - 1 - t.length) '0') ++ String.mk t
  | '+' :: t => "+" ++ String.mk (List.replicate (w - 1 - t.length) '0') ++ String.mk t
  | t => String.mk (List.replicate (w - t.length) '0') ++ String.mk t

/-! Python float model.  float(...) parses sign, digits, an optional
fraction and exponent, or the literals inf/infinity/nan; overflow of the
double range yields an infinity.  Finite values are kept exactly as
mantissa times a power of ten: the pipeline only truncates them to int,
tests integrality or compares them, and no claim depends on double
rounding. -/

inductive PyFloat where
  /-- The finite value mant times ten to the exp. -/
  | fin (mant : Int) (exp : Int)
  | inf
  | negInf
  | nan
deriving DecidableEq, Repr

/-- Leading decimal digits of a char list. -/
def takeDigits (s : List Char) : List Char × List Char :=
  match s with
  | [] => ([], [])
  | c :: t =>
    if c.isDigit then
      let (d, r) := takeDigits t
      (c :: d, r)
    else ([], s)

/-- Digits to a natural number. -/
def digitsToNat (ds : List Char) : Nat :=
  ds.foldl (fun a c => a * 10 + (c.toNat - 48)) 0

/-- Double overflow test: a magnitude of mag times ten to the exp of at
least 2^1024 rounds to infinity. -/
def pyOverflow (mag : Nat) (exp : Int) : Bool :=
  if 0 ≤ exp then decide (2 ^ 1024 ≤ mag * 10 ^ exp.toNat)
  else decide (2 ^ 1024 * 10 ^ (-exp).toNat ≤ mag)

/-- Python float(s): none models a ValueError. -/
def pyFloatParse (s : String) : Option PyFloat :=
  let cs := (pyStrip s).toList
  let (neg, cs) :=
    match cs with
    | '+' :: t => (false, t)
    | '-' :: t => (true, t)
    | _ => (false, cs)
  let low := cs.map Char.toLower
  if low = "inf".toList || low = "infinity".toList then
    some (if neg then PyFloat.negInf else PyFloat.inf)
  else if low = "nan".toList then some PyFloat.nan
  else
    let (ip, r1) := takeDigits cs
    let (fp, r2) :=
      match r1 with
      | '.' :: t =>
        let (d, r) := takeDigits t
        (some d, r)
      | _ => (none, r1)
    if ip.isEmpty && (match fp with | some d => d.isEmpty | none => true) then none
    else
      let flen := (match fp with | some d => d.length | none => 0)
      let mag : Nat :=
        digitsToNat ip * 10 ^ flen + (match fp with | some d => digitsToNat d | none => 0)
      let withExp : Option Int :=
        match r2 with
        | [] => some (-(flen : Int))
        | 'e' :: t | 'E' :: t =>
          let (es, t2) :=
            match t with
            | '+' :: u => ((1 : Int), u)
            | '-' :: u => ((-1 : Int), u)
            | _ => ((1 : Int), t)
          let (ed, t3) := takeDigits t2
          if ed.isEmpty || !t3.isEmpty then none
          else some (es * (digitsToNat ed : Int) - (flen : Int))
        | _ => none
      match withExp with
      | none => none
      | some e =>
        if pyOverflow mag e then some (if neg then PyFloat.negInf else PyFloat.inf)
        else some (PyFloat.fin (if neg then -(mag : Int) else (mag : Int)) e)

/-- Python int(float) truncation toward zero on a finite value. -/
def pyFinTrunc (mant exp : Int) : Int :=
  if 0 ≤ exp then mant * (10 : Int) ^ exp.toNat
  else Int.tdiv mant ((10 : Int) ^ (-exp).toNat)

/-- Integrality of a finite value, the test float equals int(float). -/
def pyFinIsIntegral (mant exp : Int) : Bool :=
  decide (0 ≤ exp) || decide (mant % ((10 : Int) ^ (-exp).toNat) = 0)

/-- The exact rational a finite value denotes (reference coordinates). -/
def pyFinToRat (mant exp : Int) : Rat :=
  (mant : Rat) * (10 : Rat) ^ exp

/-! normalize_code, app.py lines 654-680. -/

/-- Normalize provider code or postal code by removing unnecessary decimal
points (Excel float artifacts such as "40088.0").  Follows
ExcelTransformer.normalize_code: missing and NaN-like values become none,
a value containing a dot that parses to a whole float is rendered as that
integer, anything else is returned stripped. -/
def normalize_code (value : Cell) : Option String :=
  match value with
  | none => none
  | some v =>
    let s := pyStrip v
    if pyLower s = "nan" || s = "" then none
    else if s.toList.contains '.' then
      match pyFloatParse s with
      | some (PyFloat.fin m e) =>
        if pyFinIsIntegral m e then some (toString (pyFinTrunc m e)) else some s
      | _ => some s
    else some s

/-! GeocodingService, app.py lines 203-365.  The lookup table is an
association list keyed by 6-digit postal strings; statistics are the three
counters of geocode_stats; the geopy client is the injected `remote`
function (none result = not found, error = an exception the code catches). -/

structure GeoStats where
  postal_matches : Nat
  api_calls : Nat
  failures : Nat
deriving DecidableEq, Repr

/-- First coordinate pair stored under a key (dict lookup; the builder
keeps at most one entry per key). -/
def lookupCoord (lkp : List (String × Rat × Rat)) (key : String) : Option (Rat × Rat) :=
  match lkp with
  | [] => none
  | (k, v) :: t => if k = key then some v else lookupCoord t key

structure GeoService where
  use_google_api : Bool
  /-- geolocator is not None: the API was enabled, a key was configured and
  the client constructor succeeded. -/
  has_geolocator : Bool
  postal_code_lookup : List (String × Rat × Rat)
  /-- Stubbed geopy geocode(address, region): ok none = not found, ok some
  = coordinates, error = a raised exception. -/
  remote : String → Option String → Except Unit (Option (Rat × Rat))
  geocode_stats : GeoStats

/-- The postal-key normalization inside geocode_by_postal_code: falsy and
None/nan values give no key, an S country prefix is stripped, the rest is
int(float(...)) rendered 06d.  ok none models the caught ValueError path;
error models the OverflowError int raises on an infinite float, which the
except clause of geocode_by_postal_code does not list. -/
def normalize_postal_key (postal : Cell) : Except Unit (Option String) :=
  match postal with
  | none => Except.ok none
  | some p =>
    if p = "" then Except.ok none
    else if pyStrip p = "None" || pyStrip p = "" || pyStrip p = "nan" then Except.ok none
    else
      let s := pyStrip p
      let s :=
        if (s.toList.headD ' ').toUpper = 'S' && 1 < s.length then
          String.mk (s.toList.drop 1)
        else s
      match pyFloatParse s with
      | none => Except.ok none
      | some PyFloat.nan => Except.ok none
      | some PyFloat.inf => Except.error ()
      | some PyFloat.negInf => Except.error ()
      | some (PyFloat.fin m e) => Except.ok (some (zfill (toString (pyFinTrunc m e)) 6))

/-- geocode_by_postal_code: local lookup by normalized postal code.  The
postal_matches counter is bumped only on a hit; an uncatchable
OverflowError propagates as error. -/
def geocode_by_postal_code (svc : GeoService) (postal : Cell) :
    Except Unit ((Option Rat × Option Rat) × GeoStats) :=
  match normalize_postal_key postal with
  | Except.error e => Except.error e
  | Except.ok none => Except.ok ((none, none), svc.geocode_stats)
  | Except.ok (some key) =>
    match lookupCoord svc.postal_code_lookup key with
    | some (la, lo) =>
      Except.ok ((some la, some lo),
        { svc.geocode_stats with postal_matches := svc.geocode_stats.postal_matches + 1 })
    | none => Except.ok ((none, none), svc.geocode_stats)

/-- Malaysian indicators checked by geocode_by_address when no country was
passed (plain containment). -/
def addrMalaysianIndicators : List String :=
  ["johor", "kuala lumpur", "selangor", "penang", "perak", "kedah", "kelantan",
   "terengganu", "pahang", "negeri sembilan", "melaka", "sabah", "sarawak",
   "perlis", "putrajaya", "labuan"]

/-- The region bias and country-suffix mangling of geocode_by_address: an
explicit country wins, otherwise the address text decides, defaulting to
Singapore.  Returns the region hint and the address text to send. -/
def regionBias (addressStr : String) (country : Option String) : Option String × String :=
  let addressLower := pyLower addressStr
  match country with
  | some c =>
    if c = "MALAYSIA" then
      (some "my",
       if strContains addressLower "malaysia" then addressStr
       else addressStr ++ ", Malaysia")
    else if c = "SINGAPORE" then
      (some "sg",
       if strContains addressLower "singapore" then addressStr
       else addressStr ++ ", Singapore")
    else (none, addressStr)
  | none =>
    let hasSingapore := strContains addressLower "singapore"
    let hasMalaysia := strContains addressLower "malaysia"
    if !hasSingapore && !hasMalaysia then
      if addrMalaysianIndicators.any (fun ind => strContains addressLower ind) then
        (some "my", addressStr ++ ", Malaysia")
      else
        (some "sg", addressStr ++ ", Singapore")
    else if hasMalaysia then (some "my", addressStr)
    else (some "sg", addressStr)

/-- geocode_by_address: the remote call with region bias.  Early exits
(no address, NaN-like address, no geolocator) touch no counter; otherwise
api_calls is bumped before the call and failures on a miss or exception. -/
def geocode_by_address (svc : GeoService) (address : Cell) (country : Option String) :
    (Option Rat × Option Rat) × GeoStats :=
  match address with
  | none => ((none, none), svc.geocode_stats)
  | some a =>
    if a = "" || pyStrip a = "" || pyStrip a = "None" || pyStrip a = "nan"
        || !svc.has_geolocator then
      ((none, none), svc.geocode_stats)
    else
      let st := { svc.geocode_stats with api_calls := svc.geocode_stats.api_calls + 1 }
      let rb := regionBias (pyStrip a) country
      match svc.remote rb.2 rb.1 with
      | Except.ok (some (la, lo)) => ((some la, some lo), st)
      | Except.ok none => ((none, none), { st with failures := st.failures + 1 })
      | Except.error _ => ((none, none), { st with failures := st.failures + 1 })

/-- GeocodingService.geocode: the country-aware strategy.  MALAYSIA skips
the local lookup entirely; otherwise the local lookup is tried first and
the remote geocoder only when use_google_api is on. -/
def geocode (svc : GeoService) (postal address : Cell) (country : Option String) :
    Except Unit ((Option Rat × Option Rat × String) × GeoStats) :=
  if country = some "MALAYSIA" then
    if svc.use_google_api then
      let ((la, lo), st) := geocode_by_address svc address country
      match la, lo with
      | some la, some lo => Except.ok ((some la, some lo, "address"), st)
      | _, _ => Except.ok ((none, none, "failed"), st)
    else Except.ok ((none, none, "failed"), svc.geocode_stats)
  else
    match geocode_by_postal_code svc postal with
    | Except.error e => Except.error e
    | Except.ok ((la, lo), st1) =>
      match la, lo with
      | some la, some lo => Except.ok ((some la, some lo, "postal_code"), st1)
      | _, _ =>
        if svc.use_google_api then
          let ((la2, lo2), st2) :=
            geocode_by_address { svc with geocode_stats := st1 } address country
          match la2, lo2 with
          | some la2, some lo2 => Except.ok ((some la2, some lo2, "address"), st2)
          | _, _ => Except.ok ((none, none, "failed"), st2)
        else Except.ok ((none, none, "failed"), st1)

/-- get_stats returns a copy of the counters. -/
def get_stats (svc : GeoService) : GeoStats :=
  svc.geocode_stats

/-! extract_postal_code, app.py lines 1086-1154, and the country detectors.
The regex pieces are hand-translated scanners: a standalone n-digit run is
what the word-bounded n-digit group matches, the SINGAPORE search is the
literal token followed by whitespace and six digits, and the Malaysian
cascade keeps the source ordering of its five patterns. -/

/-- Collector for the word-bounded digit-run regex: maximal digit runs of
length exactly n whose neighbours are not word characters, in order.
prevIsWord tracks the character before the current position, startOK
whether the current run began at a word boundary, cur the run read so far
(reversed). -/
def standaloneRunsAux (n : Nat) (prevIsWord startOK : Bool) (cur : List Char) :
    List Char → List String
  | [] => if !cur.isEmpty && cur.length = n && startOK then [String.mk cur.reverse] else []
  | c :: t =>
    if c.isDigit then
      if cur.isEmpty then standaloneRunsAux n true (!prevIsWord) [c] t
      else standaloneRunsAux n true startOK (c :: cur) t
    else
      (if !cur.isEmpty && cur.length = n && startOK && !isWordChar c
       then [String.mk cur.reverse] else [])
        ++ standaloneRunsAux n (isWordChar c) true [] t

/-- All matches of the word-bounded n-digit pattern, in order. -/
def standaloneRuns (n : Nat) (s : String) : List String :=
  standaloneRunsAux n false true [] s.toList

/-- Leftmost match of the SINGAPORE-then-six-digits pattern
(case-insensitive literal, one or more spaces, six digits); returns the
digit group. -/
def searchSingaporeSix : List Char → Option String
  | [] => none
  | c :: t =>
    let s := c :: t
    let hit :=
      if (s.take 9).map Char.toLower = "singapore".toList then
        let r := s.drop 9
        let w := leadCount Char.isWhitespace r
        let d := (r.drop w).take 6
        if 1 ≤ w && d.length = 6 && d.all Char.isDigit then some (String.mk d) else none
      else none
    match hit with
    | some g => some g
    | none => searchSingaporeSix t

/-- Character class of letters and whitespace (the second Malaysian
pattern). -/
def isAlphaWS (c : Char) : Bool :=
  c.isAlpha || c.isWhitespace

/-- Word boundary between an optional previous character and a next one. -/
def boundaryAt (prev : Option Char) (c : Char) : Bool :=
  (match prev with | some p => isWordChar p | none => false) != isWordChar c

/-- First match of the second Malaysian pattern: a word boundary, letters
and spaces ending in whitespace, then five digits (city followed by postal
code). -/
def findMyP2 : Option Char → List Char → Option String
  | _, [] => none
  | prev, c :: t =>
    let s := c :: t
    let hit :=
      if isAlphaWS c && boundaryAt prev c then
        let m := leadCount isAlphaWS s
        let d := (s.drop m).take 5
        if 2 ≤ m && (s.getD (m - 1) ' ').isWhitespace && d.length = 5 && d.all Char.isDigit
        then some (String.mk d) else none
      else none
    match hit with
    | some g => some g
    | none => findMyP2 (some c) t

/-- First match of the third Malaysian pattern: a comma, optional
whitespace, five digits, then only whitespace to the end of the text. -/
def findMyP3 : List Char → Option String
  | [] => none
  | c :: t =>
    let hit :=
      if c = ',' then
        let w := leadCount Char.isWhitespace t
        let d := (t.drop w).take 5
        let rest := (t.drop w).drop 5
        if d.length = 5 && d.all Char.isDigit && rest.all Char.isWhitespace
        then some (String.mk d) else none
      else none
    match hit with
    | some g => some g
    | none => findMyP3 t

/-- Lookahead of the fourth Malaysian pattern: optional whitespace then the
end, a comma, or whitespace and one of JOHOR, SELANGOR, MALAYSIA. -/
def myP4Lookahead (r : List Char) : Bool :=
  let w := leadCount Char.isWhitespace r
  let rest := r.drop w
  match rest with
  | [] => true
  | ',' :: _ => true
  | _ =>
    1 ≤ w &&
      (["johor", "selangor", "malaysia"].any
        (fun tk => tk.toList.isPrefixOf (rest.map Char.toLower)))

/-- First match of the fourth Malaysian pattern: five digits followed by
the end-token lookahead. -/
def findMyP4 : List Char → Option String
  | [] => none
  | c :: t =>
    let s := c :: t
    let d := s.take 5
    let hit :=
      if d.length = 5 && d.all Char.isDigit && myP4Lookahead (s.drop 5)
      then some (String.mk d) else none
    match hit with
    | some g => some g
    | none => findMyP4 t

/-- First match of the fifth Malaysian pattern: any five consecutive
digits. -/
def findMyP5 : List Char → Option String
  | [] => none
  | c :: t =>
    let d := (c :: t).take 5
    if d.length = 5 && d.all Char.isDigit then some (String.mk d)
    else findMyP5 t

/-- Malaysian indicator lexicon of extract_postal_code (plain
containment). -/
def postalMalaysianIndicators : List String :=
  ["malaysia", "johor", "kuala lumpur", "selangor", "penang", "perak",
   "kedah", "kelantan", "terengganu", "pahang", "negeri sembilan",
   "melaka", "sabah", "sarawak", "perlis", "putrajaya", "labuan",
   "kulai", "skudai", "pasir gudang", "ulu tiram", "masai", "gelang patah",
   "johor bahru", "kl", "shah alam", "petaling jaya", "bandar", "taman"]

/-- Country detection inside extract_postal_code when no country is
passed: an explicit SINGAPORE keyword wins, then the Malaysian lexicon,
then the five-digit-but-no-six-digit heuristic. -/
def extractCountryForPostal (addressStr : String) : String :=
  let addressLower := pyLower addressStr
  if strContains addressLower "singapore" then "SINGAPORE"
  else
    let has5 := !(standaloneRuns 5 addressStr).isEmpty
    let has6 := !(standaloneRuns 6 addressStr).isEmpty
    let isMalaysian :=
      postalMalaysianIndicators.any (fun ind => strContains addressLower ind)
        || (has5 && !has6)
    if isMalaysian then "MALAYSIA" else "SINGAPORE"

/-- The Singapore branch: the SINGAPORE-token search, else the last
standalone six-digit run. -/
def sgPostalFromText (s : String) : Option String :=
  match searchSingaporeSix s.toList with
  | some g => some g
  | none => (standaloneRuns 6 s).getLast?

/-- The Malaysian branch: the ordered cascade of five patterns, first
match of the first pattern that has one. -/
def myPostalPatterns : List (String → Option String) :=
  [fun s => (standaloneRuns 5 s).head?,
   fun s => findMyP2 none s.toList,
   fun s => findMyP3 s.toList,
   fun s => findMyP4 s.toList,
   fun s => findMyP5 s.toList]

/-- The Malaysian cascade result. -/
def myPostalFromText (s : String) : Option String :=
  myPostalPatterns.findSome? (fun p => p s)

/-- extract_postal_code: country-aware postal extraction from an address
text. -/
def extract_postal_code (address : Cell) (country : Option String) : Option String :=
  match address with
  | none => none
  | some a =>
    let addressStr := pyStrip a
    let c :=
      match country with
      | some c => c
      | none => extractCountryForPostal addressStr
    if c = "SINGAPORE" then sgPostalFromText addressStr
    else if c = "MALAYSIA" then myPostalFromText addressStr
    else none

/-! detect_country, the closure inside transform_sheet
(app.py lines 1821-1865). -/

/-- Word-bounded containment: the word with regex word boundaries on both
sides occurs in the text. -/
def wordBoundedContainsAux (w : List Char) : Option Char → List Char → Bool
  | prev, s =>
    (w.isPrefixOf s &&
      (match prev with | some p => !isWordChar p | none => true) &&
      (match (s.drop w.length).head? with | some nc => !isWordChar nc | none => true))
    || (match s with
        | [] => false
        | c :: t => wordBoundedContainsAux w (some c) t)

/-- Word-bounded containment on strings. -/
def wordBoundedContains (text word : String) : Bool :=
  wordBoundedContainsAux word.toList none text.toList

/-- Multi-word Malaysian indicators of detect_country (plain
containment, checked first). -/
def countryMultiWordIndicators : List String :=
  ["kuala lumpur", "johor bahru", "negeri sembilan",
   "shah alam", "petaling jaya", "johor darul", "iskandar puteri",
   "taman daya", "bandar indahpura", "ulu tiram"]

/-- Single-word Malaysian indicators of detect_country (word-bounded). -/
def countrySingleWordIndicators : List String :=
  ["malaysia", "johor", "selangor", "penang", "perak",
   "kedah", "kelantan", "terengganu", "pahang",
   "melaka", "sabah", "sarawak", "perlis", "putrajaya", "labuan",
   "kulai", "skudai", "senai", "pasir gudang", "pontian",
   "batu pahat", "muar", "segamat", "kluang", "kota tinggi"]

/-- detect_country: SINGAPORE keyword first, then multi-word phrases, then
word-bounded single words, then the standalone kl abbreviation; the
default is SINGAPORE. -/
def detect_country (address : Cell) : String :=
  match address with
  | none => "SINGAPORE"
  | some a =>
    if pyStrip a = "" then "SINGAPORE"
    else
      let addressLower := pyLower a
      if strContains addressLower "singapore" then "SINGAPORE"
      else if countryMultiWordIndicators.any (fun i => strContains addressLower i) then
        "MALAYSIA"
      else if countrySingleWordIndicators.any (fun i => wordBoundedContains addressLower i) then
        "MALAYSIA"
      else if wordBoundedContains addressLower "kl" then "MALAYSIA"
      else "SINGAPORE"

/-! difflib.SequenceMatcher and get_close_matches, as used by the fuzzy
phase of map_columns.  The inputs are short, so the junk and autojunk
machinery of difflib never fires and is not modeled; ratios are exact
rationals kept as numerator-denominator pairs. -/

/-- Association lookup for the j2len table of find_longest_match. -/
def alookup (l : List (Nat × Nat)) (k : Nat) : Nat :=
  match l.find? (fun p => p.1 == k) with
  | some p => p.2
  | none => 0

/-- SequenceMatcher.find_longest_match on the windows [alo, ahi) of a and
[blo, bhi) of b: the longest matching block, earliest in a then earliest
in b, as (i, j, size). -/
def findLongestMatch (a b : List Char) (alo ahi blo bhi : Nat) : Nat × Nat × Nat :=
  let step := fun (st : List (Nat × Nat) × (Nat × Nat × Nat)) (i : Nat) =>
    let (j2len, best) := st
    let js := ((b.enum.filter
      (fun p => decide (blo ≤ p.1) && decide (p.1 < bhi) && p.2 == a.getD i ' ')).map
        Prod.fst)
    let inner := js.foldl (fun (st2 : List (Nat × Nat) × (Nat × Nat × Nat)) j =>
      let (nj, bst) := st2
      let k := (if j = 0 then 0 else alookup j2len (j - 1)) + 1
      let bst := if k > bst.2.2 then (i + 1 - k, j + 1 - k, k) else bst
      ((j, k) :: nj, bst)) ([], best)
    (inner.1, inner.2)
  ((List.range' alo (ahi - alo)).foldl step ([], (alo, blo, 0))).2

/-- Total size of the matching blocks (get_matching_blocks), computed by
the recursive longest-block decomposition; fuel bounds the recursion
depth, a.length + 1 always suffices. -/
def matchTotal (a b : List Char) : Nat → Nat × Nat × Nat × Nat → Nat
  | 0, _ => 0
  | fuel + 1, (alo, ahi, blo, bhi) =>
    let (i, j, k) := findLongestMatch a b alo ahi blo bhi
    if k = 0 then 0
    else k + matchTotal a b fuel (alo, i, blo, j) + matchTotal a b fuel (i + k, ahi, j + k, bhi)

/-- Total matched size over the full sequences. -/
def matchingTotal (a b : List Char) : Nat :=
  matchTotal a b (a.length + 1) (0, a.length, 0, b.length)

/-- SequenceMatcher.ratio as the pair (2 M, len a + len b). -/
def fullScore (a b : List Char) : Nat × Nat :=
  (2 * matchingTotal a b, a.length + b.length)

/-- Multiset intersection size of the two character sequences. -/
def multisetCommon (a b : List Char) : Nat :=
  a.dedup.foldl (fun s c => s + min (a.count c) (b.count c)) 0

/-- SequenceMatcher.quick_ratio as a pair. -/
def quickScore (a b : List Char) : Nat × Nat :=
  (2 * multisetCommon a b, a.length + b.length)

/-- SequenceMatcher.real_quick_ratio as a pair. -/
def realQuickScore (a b : List Char) : Nat × Nat :=
  (2 * min a.length b.length, a.length + b.length)

/-- Score at least the cutoff cn/cd; an empty total is ratio 1.0 as in
difflib. -/
def scoreGE (s : Nat × Nat) (cn cd : Nat) : Bool :=
  if s.2 = 0 then decide (cd ≥ cn) else decide (s.1 * cd ≥ cn * s.2)

/-- Strictly greater comparison of two scores. -/
def scoreGT (x y : Nat × Nat) : Bool :=
  let xv := if x.2 = 0 then (1, 1) else x
  let yv := if y.2 = 0 then (1, 1) else y
  decide (xv.1 * yv.2 > yv.1 * xv.2)

/-- Equality of two scores as rationals. -/
def scoreEQ (x y : Nat × Nat) : Bool :=
  let xv := if x.2 = 0 then (1, 1) else x
  let yv := if y.2 = 0 then (1, 1) else y
  decide (xv.1 * yv.2 = yv.1 * xv.2)

/-- Python string less-than: lexicographic on code points. -/
def pyStrLtAux : List Char → List Char → Bool
  | [], [] => false
  | [], _ :: _ => true
  | _ :: _, [] => false
  | c :: t, d :: u => c.toNat < d.toNat || (c == d && pyStrLtAux t u)

/-- Python string less-than on strings. -/
def pyStrLt (x y : String) : Bool :=
  pyStrLtAux x.toList y.toList

/-- difflib.get_close_matches(word, possibilities, n = 1, cutoff = cn/cd):
the candidate passing the three ratio filters with the largest
(ratio, string) pair, if any. -/
def getCloseMatch1 (word : String) (poss : List String) (cn cd : Nat) : Option String :=
  let b := word.toList
  let scored := poss.filterMap (fun x =>
    let a := x.toList
    if scoreGE (realQuickScore a b) cn cd && scoreGE (quickScore a b) cn cd
        && scoreGE (fullScore a b) cn cd
    then some (fullScore a b, x) else none)
  let best := scored.foldl (fun acc cur =>
    match acc with
    | none => some cur
    | some bst =>
      if scoreGT cur.1 bst.1 || (scoreEQ cur.1 bst.1 && pyStrLt bst.2 cur.2)
      then some cur else some bst) none
  best.map Prod.snd

/-! map_columns, app.py lines 845-1041. -/

/-- A Python dict as an insertion-ordered association list: first-insertion
position is kept, assignment to an existing key replaces its value in
place. -/
abbrev CMap := List (String × String)

/-- dict assignment. -/
def dictSet (m : CMap) (k v : String) : CMap :=
  match m with
  | [] => [(k, v)]
  | (a, b) :: rest => if a = k then (k, v) :: rest else (a, b) :: dictSet rest k v

/-- dict lookup. -/
def cmLookup (m : CMap) (k : String) : Option String :=
  match m with
  | [] => none
  | (a, b) :: rest => if a = k then some b else cmLookup rest k

/-- dict key membership. -/
def cmMem (m : CMap) (k : String) : Bool :=
  (cmLookup m k).isSome

/-- dict.update. -/
def cmUpdate (m upd : CMap) : CMap :=
  upd.foldl (fun m kv => dictSet m kv.1 kv.2) m

/-- The column-label cleaning of map_columns: lowercase, strip, collapse
whitespace runs. -/
def cleanCol (c : String) : String :=
  collapseWS (pyStrip (pyLower c))

/-- df_cols_lower / df_cols_cleaned: cleaned label to original label, with
Python dict semantics (later same-key columns replace the value, key order
is first insertion). -/
def cleanDict (cols : List String) : CMap :=
  cols.foldl (fun d c => dictSet d (cleanCol c) c) []

/-- The accepted-literal table of map_columns, keys in source order. -/
def mappings : List (String × List String) :=
  [("clinic_id",
    ["ihp clinic id", "provider code", "clinic id", "id", "clinic code",
     "provider id", "clinic identifier", "code", "clinic no", "clinic number",
     "master code", "master id",
     "sp code", "sp id"]),
   ("clinic_name",
    ["clinic name", "name", "clinic", "provider name", "facility name",
     "medical center", "medical centre", "center name", "centre name"]),
   ("region",
    ["region", "zone", "district", "sector", "territory", "location",
     "geographical region", "geo region", "state", "province", "city"]),
   ("area",
    ["area", "estate", "neighbourhood", "neighborhood", "locality",
     "precinct", "town", "suburb", "community", "district area", "state"]),
   ("address",
    ["address", "full address", "complete address", "location address",
     "physical address", "street address", "mailing address", "address1"]),
   ("telephone",
    ["tel no.", "tel", "phone", "telephone", "contact", "contact no",
     "contact number", "phone number", "tel number", "mobile", "contact no.", "tel no"]),
   ("remarks",
    ["remarks", "comment", "note", "remark", "comments", "notes",
     "additional info", "special notes", "observation", "memo"]),
   ("operating_hours",
    ["operating hours", "hours", "business hours", "clinic hours",
     "opening hours", "operation hours", "working hours", "service hours"]),
   ("mon_fri_am",
    ["mon - fri (am)", "monday - friday", "weekday am", "mon-fri am",
     "operating hours\nmon-fri", "operating hours mon-fri", "weekdays am",
     "operating hours \nmon - fri", "operating hours mon - fri",
     "operating hours (monday - friday)",
     "operation hours", "mon to fri",
     "mon - fri",
     "weekdays",
     "operating hour monday - friday"]),
   ("mon_fri_pm",
    ["mon - fri (pm)", "monday - friday (evening)", "weekday pm", "mon-fri pm",
     "weekdays pm"]),
   ("mon_fri_night",
    ["mon - fri (night)", "weekday night", "mon-fri night", "weekdays night"]),
   ("sat_am", ["sat (am)", "saturday", "sat am", "saturday am"]),
   ("sat_pm", ["sat (pm)", "sat pm", "saturday pm"]),
   ("sat_night", ["sat (night)", "sat night", "saturday night"]),
   ("sat_simple", ["sat", "operating hours (saturday)"]),
   ("sun_am", ["sun (am)", "sunday", "sun am", "sunday am"]),
   ("sun_pm", ["sun (pm)", "sun pm", "sunday pm"]),
   ("sun_night", ["sun (night)", "sun night", "sunday night"]),
   ("sun_simple", ["sun", "operating hours (sunday)"]),
   ("holiday_am", ["public holiday (am)", "public holiday", "holiday am", "ph am", "ph",
    "publicday"]),
   ("holiday_pm", ["public holiday (pm)", "holiday pm", "ph pm"]),
   ("holiday_night", ["public holiday (night)", "holiday night", "ph night"]),
   ("holiday_simple", ["holiday", "ph", "operating hours (holiday(s))",
    "operating hours (holidays)"]),
   ("address_blk", ["blk", "block", "building no", "bldg no", "unit block",
    "blk & road name"]),
   ("address_road", ["road name", "street name", "street", "road", "avenue", "ave",
    "blk & road name"]),
   ("address_unit", ["unit no.", "unit no", "unit", "#", "suite", "level",
    "unit & building name"]),
   ("address_building", ["building name", "building", "bldg name", "complex name",
    "unit & building name"]),
   ("postal_code", ["postal code", "postcode", "zip code", "zip", "postal"]),
   ("doctor_name", ["physician - in - charge", "physician in charge", "doctor",
    "physician", "practitioner"]),
   ("specialty", ["specialty", "speciality", "medical specialty", "specialization",
    "department"]),
   ("address1", ["address1", "address 1", "primary address", "street address"]),
   ("address2", ["address2", "address 2", "secondary address", "unit number"]),
   ("address3", ["address3", "address 3", "building name", "complex name"]),
   ("address4", ["address4", "address 4", "postal address", "location detail"])]

/-- Phase 1, exact pattern matching: for each canonical key, the first
accepted literal present among the cleaned labels. -/
def phase1 (d : CMap) : CMap :=
  mappings.foldl (fun m kv =>
    match kv.2.find? (fun p => cmMem d p) with
    | some p => dictSet m kv.1 ((cmLookup d p).getD "")
    | none => m) []

/-- One speculative binding of phase 2: the column at the given offset is
bound to the key when it exists and satisfies the condition. -/
def phase2Step (m : CMap) (key : String) (o : Option String) (cond : String → Bool) : CMap :=
  match o with
  | some nc => if cond nc then dictSet m key nc else m
  | none => m

/-- Phase 2, sequential operating-hours columns: the one to three columns
after a mapped weekday column are bound to the Saturday, Sunday and
holiday keys when they look unnamed or day-labelled; the source does not
test whether those keys are already bound. -/
def phase2 (dfColumns : List String) (m : CMap) : CMap :=
  match cmLookup m "mon_fri_am" with
  | none => m
  | some opCol =>
    match dfColumns.findIdx? (fun c => c == opCol) with
    | none => m
    | some i =>
      let m := phase2Step m "sat_simple" (dfColumns.get? (i + 1))
        (fun nc => strContains (pyLower nc) "unnamed" || pyStrip (pyLower nc) = "sat")
      let m := phase2Step m "sun_simple" (dfColumns.get? (i + 2))
        (fun nc => strContains (pyLower nc) "unnamed" || strContains (pyLower nc) "sun")
      phase2Step m "holiday_simple" (dfColumns.get? (i + 3))
        (fun nc => strContains (pyLower nc) "unnamed" || strContains (pyLower nc) "ph"
          || strContains (pyLower nc) "holiday")

/-- Candidate test of phase 3: some cleaned label contains one of the
given fragments. -/
def hasCandidate (d : CMap) (pats : List String) : Bool :=
  d.any (fun kv => pats.any (fun p => strContains kv.1 p))

/-- Phase 3, fuzzy matching for unmapped essential keys, cutoff 0.8 for
region and area and 0.6 otherwise, filling only keys not already
resolved. -/
def phase3 (d : CMap) (m : CMap) : CMap :=
  let ess := ["clinic_name", "telephone"]
    ++ (if hasCandidate d ["region", "zone", "state", "city"] then ["region"] else [])
    ++ (if hasCandidate d ["area", "district", "state"] then ["area"] else [])
  ess.foldl (fun m ec =>
    if cmMem m ec then m
    else
      let pats := ((mappings.find? (fun kv => kv.1 == ec)).map Prod.snd).getD []
      let cn : Nat := if ec = "region" || ec = "area" then 4 else 3
      match pats.findSome? (fun p => getCloseMatch1 p (d.map Prod.fst) cn 5) with
      | some bst => dictSet m ec ((cmLookup d bst).getD "")
      | none => m) m

/-- Keyword table of phase 4. -/
def remainingMappings : List (String × List String) :=
  [("clinic_id", ["clinic code", "clinic id", "provider id", "provider code"]),
   ("address", ["address1", "address", "location"]),
   ("remarks", ["remark", "comment", "note"])]

/-- Phase 4, keyword substring matching for remaining keys; the keyword
must be over 40 percent of the label length, the first label (in
insertion order) with any matching keyword wins, and only unresolved keys
are filled. -/
def phase4 (d : CMap) (m : CMap) : CMap :=
  remainingMappings.foldl (fun m kv =>
    if cmMem m kv.1 then m
    else
      match d.findSome? (fun colkv =>
        if kv.2.any (fun kw =>
             strContains colkv.1 kw && decide (kw.length * 5 > colkv.1.length * 2))
        then some colkv.1 else none) with
      | some colName => dictSet m kv.1 ((cmLookup d colName).getD "")
      | none => m) m

/-- map_columns: the four ordered phases. -/
def map_columns (dfColumns : List String) : CMap :=
  let d := cleanDict dfColumns
  phase4 d (phase3 d (phase2 dfColumns (phase1 d)))

/-! infer_columns_from_data, app.py lines 1043-1084.  Only the column
labels are consulted. -/

/-- Tokens that make a label look like data rather than a header. -/
def dataLikeIndicators : List String :=
  ["SINGAPORE", "CLINIC", "MEDICAL", "CENTRE", "AVENUE", "ROAD", "STREET", "AM", "PM"]

/-- infer_columns_from_data: when labels look like data (fewer than three
meaningful labels, or two of the first six contain data-like tokens), a
fixed positional mapping is assumed for sheets of at least five
columns. -/
def infer_columns_from_data (cols : List String) : CMap :=
  let meaningful := cols.filter (fun c => (pyStrip c).length > 0)
  let dataLike := ((meaningful.take 6).filter (fun c =>
    dataLikeIndicators.any (fun ind => strContains (pyUpper c) ind))).length
  let shouldInfer := meaningful.length < 3 || dataLike ≥ 2
  if shouldInfer && cols.length ≥ 5 then
    let entry := fun (k : String) (i : Nat) =>
      if i < cols.length then [(k, cols.getD i "")] else []
    entry "region" 1 ++ entry "area" 2 ++ entry "clinic_id" 3 ++ entry "clinic_name" 4
      ++ entry "address" 5 ++ entry "telephone" 6 ++ entry "mon_fri_am" 7
      ++ entry "sat_am" 9 ++ entry "sun_am" 10 ++ entry "holiday_am" 11
  else []

/-! Operating hours: _is_truly_empty, normalize_time_range,
extract_hours_from_remarks and combine_operating_hours_flexible, app.py
lines 1156-1474.  The day regexes are compiled to a small backtracking
engine whose preference order (alternation left first, greedy option and
repetition) matches the re module; time patterns are hand-translated
scanners returning their two capture groups. -/

/-- Regular expression fragment: tok is a character class, alt prefers its
left side, opt and rep1 are greedy, wb a word boundary. -/
inductive RE where
  | eps
  | tok (p : Char → Bool)
  | cat (a b : RE)
  | alt (a b : RE)
  | opt (a : RE)
  | rep1 (a : RE)
  | wb
deriving Inhabited

/-- Word boundary between the previous character and the head of the
rest. -/
def wordBoundaryHere (prev : Option Char) (s : List Char) : Bool :=
  let pw := match prev with | some p => isWordChar p | none => false
  let nw := match s.head? with | some c => isWordChar c | none => false
  pw != nw

/-- One level of the backtracking matcher: structural recursion on the
expression, with `deeper` handling every repetition unfolding (it is the
matcher at one less unit of fuel). -/
def reGo {α : Type}
    (deeper : RE → Option Char → List Char → (Option Char → List Char → Option α) →
      Option α) :
    RE → Option Char → List Char → (Option Char → List Char → Option α) → Option α
  | RE.eps, prev, s, k => k prev s
  | RE.tok p, _, s, k =>
    match s with
    | c :: rest => if p c then k (some c) rest else none
    | [] => none
  | RE.wb, prev, s, k => if wordBoundaryHere prev s then k prev s else none
  | RE.cat a b, prev, s, k => reGo deeper a prev s (fun p2 s2 => reGo deeper b p2 s2 k)
  | RE.alt a b, prev, s, k =>
    match reGo deeper a prev s k with
    | some r => some r
    | none => reGo deeper b prev s k
  | RE.opt a, prev, s, k =>
    match reGo deeper a prev s k with
    | some r => some r
    | none => k prev s
  | RE.rep1 a, prev, s, k =>
    deeper a prev s (fun p2 s2 =>
      match deeper (RE.rep1 a) p2 s2 k with
      | some r => some r
      | none => k p2 s2)

/-- The matcher at a given amount of fuel: at zero fuel a repetition
fails, otherwise its pieces run one level deeper. -/
def reFuel {α : Type} : Nat →
    RE → Option Char → List Char → (Option Char → List Char → Option α) → Option α
  | 0 => reGo (fun _ _ _ _ => none)
  | f + 1 => reGo (reFuel f)

/-- Backtracking matcher in continuation style: the first success in the
preference order of the re module, with fuel bounding rep1 unfolding. -/
def reFirst {α : Type} (re : RE) (fuel : Nat) (prev : Option Char) (s : List Char)
    (k : Option Char → List Char → Option α) : Option α :=
  reFuel fuel re prev s k

/-- Case-insensitive literal character. -/
def reChar (c : Char) : RE :=
  RE.tok (fun x => x.toLower == c)

/-- Case-insensitive literal string (given in lowercase). -/
def reLit (s : String) : RE :=
  s.toList.foldr (fun c r => RE.cat (reChar c) r) RE.eps

/-- One whitespace character. -/
def reWS : RE :=
  RE.tok Char.isWhitespace

/-- Zero or more whitespace characters, greedy. -/
def reWSs : RE :=
  RE.opt (RE.rep1 reWS)

/-- One or more whitespace characters, greedy. -/
def reWSp : RE :=
  RE.rep1 reWS

/-- Alternation of a non-empty list, left to right. -/
def reAlts : List RE → RE
  | [] => RE.eps
  | [r] => r
  | r :: t => RE.alt r (reAlts t)

/-- Concatenation of a list. -/
def reCats : List RE → RE
  | [] => RE.eps
  | [r] => r
  | r :: t => RE.cat r (reCats t)

/-- One day token of the combo pattern. -/
def dayTok : RE :=
  reAlts [reLit "mon", reLit "tue", reLit "wed", RE.cat (reLit "thu") (RE.opt (reLit "r")),
          reLit "fri", reLit "sat", reLit "sun"]

/-- The ordered day patterns of extract_hours_from_remarks (dict insertion
order: ranges and combos first, general keywords, then individual
days). -/
def dayPatterns : List (String × RE) :=
  [("mon_to_fri", reCats [reLit "mon", RE.opt (reLit "day"), reWSs,
      RE.alt (reLit "-") (reLit "to"), reWSs, reLit "fri", RE.opt (reLit "day")]),
   ("mon_to_wed", reCats [reLit "mon", RE.opt (reLit "day"), reWSs,
      RE.alt (reLit "-") (reLit "to"), reWSs, reLit "wed", RE.opt (reLit "nesday")]),
   ("thu_to_fri", reCats [reLit "thu", RE.opt (RE.cat (reLit "r") (RE.opt (reLit "s"))), reWSs,
      RE.alt (reLit "-") (reLit "to"), reWSs, reLit "fri", RE.opt (reLit "day")]),
   ("day_combo", RE.cat dayTok (RE.rep1 (reCats [reWSs, reLit "/", reWSs, dayTok]))),
   ("weekdays", RE.cat (reLit "weekday") (RE.opt (reLit "s"))),
   ("public_holiday", reAlts [reCats [reLit "public", reWSp, reLit "holiday"], reLit "ph",
      reCats [reLit "public", reWSp, reLit "hol", RE.opt (reLit "iday")]]),
   ("eve_of_ph", reCats [reLit "eve", reWSp, reLit "of", reWSp,
      RE.alt (reCats [reLit "public", reWSp, reLit "holiday"]) (reLit "ph")]),
   ("monday", reCats [RE.wb, reLit "mon", RE.opt (reLit "day"), RE.wb]),
   ("tuesday", reCats [RE.wb, reLit "tue",
      RE.opt (RE.cat (reLit "s") (RE.opt (reLit "day"))), RE.wb]),
   ("wednesday", reCats [RE.wb, reLit "wed", RE.opt (reLit "nesday"), RE.wb]),
   ("thursday", reCats [RE.wb, reLit "thu",
      RE.opt (RE.cat (reLit "r") (RE.opt (RE.cat (reLit "s") (RE.opt (reLit "day"))))), RE.wb]),
   ("friday", reCats [RE.wb, reLit "fri", RE.opt (reLit "day"), RE.wb]),
   ("saturday", reCats [RE.wb, reLit "sat", RE.opt (reLit "urday"), RE.wb]),
   ("sunday", reCats [RE.wb, reLit "sun", RE.opt (reLit "day"), RE.wb])]

/-- After a day match: optional whitespace, a colon, optional whitespace,
then the greedy non-empty rest of the segment (the second capture group;
segments contain no semicolon or newline). -/
def afterColonGroup (s : List Char) : Option (List Char) :=
  let k := leadCount Char.isWhitespace s
  match s.drop k with
  | ':' :: rest =>
    if rest.isEmpty then none
    else
      let w := leadCount Char.isWhitespace rest
      some (rest.drop (min w (rest.length - 1)))
  | _ => none

/-- Fuel ample for the day patterns on a segment. -/
def dayFuel (s : List Char) : Nat :=
  s.length * 4 + 64

/-- re.search of day-pattern, optional spaces, colon, group: leftmost
position, full backtracking into the day pattern; returns the raw day
group and the raw time group. -/
def searchDayColonAux (re : RE) (fuel : Nat) : Option Char → List Char → Option (String × String)
  | prev, s =>
    match reFirst re fuel prev s (fun _ s2 =>
      match afterColonGroup s2 with
      | some g => some (s.length - s2.length, g)
      | none => none) with
    | some (n, g) => some (String.mk (s.take n), String.mk g)
    | none =>
      match s with
      | [] => none
      | c :: t => searchDayColonAux re fuel (some c) t

/-- Search over a whole segment. -/
def searchDayColon (re : RE) (seg : List Char) : Option (String × String) :=
  searchDayColonAux re (dayFuel seg) none seg

/-- Exactly n digits at the head. -/
def exactDigits (n : Nat) (s : List Char) : Option (List Char × List Char) :=
  let d := s.take n
  if d.length = n && d.all Char.isDigit then some (d, s.drop n) else none

/-- Candidates of a greedy one-or-two digit group, two digits first. -/
def d12Cands (s : List Char) : List (List Char × List Char) :=
  (exactDigits 2 s).toList ++ (exactDigits 1 s).toList

/-- Whitespace then am or pm (case-insensitive), extending a captured
group. -/
def ampmTail (pre : List Char) (r : List Char) : Option (List Char × List Char) :=
  let w := leadCount Char.isWhitespace r
  let r2 := r.drop w
  match r2 with
  | a :: m :: rest =>
    if (a.toLower = 'a' || a.toLower = 'p') && m.toLower = 'm' then
      some (pre ++ r.take w ++ [a, m], rest)
    else none
  | _ => none

/-- Candidates of the am-pm time group of the first time pattern: one or
two digits, an optional colon and two digits, whitespace, am or pm; in
backtracking preference order. -/
def g1Cands (s : List Char) : List (List Char × List Char) :=
  ((d12Cands s).flatMap (fun dc =>
    let withColon :=
      match dc.2 with
      | ':' :: r2 =>
        match exactDigits 2 r2 with
        | some (dd, r3) => [(dc.1 ++ ':' :: dd, r3)]
        | none => []
      | _ => []
    withColon ++ [dc])).filterMap (fun pc => ampmTail pc.1 pc.2)

/-- The separator of the first time pattern: optional whitespace, a dash
or the word to, optional whitespace. -/
def dashToMiddle (r : List Char) : Option (List Char) :=
  let r1 := r.drop (leadCount Char.isWhitespace r)
  match r1 with
  | '-' :: t => some (t.drop (leadCount Char.isWhitespace t))
  | c1 :: c2 :: t =>
    if c1.toLower = 't' && c2.toLower = 'o' then
      some (t.drop (leadCount Char.isWhitespace t))
    else none
  | _ => none

/-- First time pattern at a position: am-pm group, separator, am-pm
group. -/
def p1At (s : List Char) : Option (String × String × List Char) :=
  (g1Cands s).findSome? (fun g1c =>
    match dashToMiddle g1c.2 with
    | none => none
    | some r2 =>
      match (g1Cands r2).head? with
      | some g2c => some (String.mk g1c.1, String.mk g2c.1, g2c.2)
      | none => none)

/-- Second time pattern at a position: four digits, optional whitespace, a
dash, optional whitespace, four digits. -/
def p2At (s : List Char) : Option (String × String × List Char) :=
  match exactDigits 4 s with
  | none => none
  | some (d1, r) =>
    match r.drop (leadCount Char.isWhitespace r) with
    | '-' :: t =>
      match exactDigits 4 (t.drop (leadCount Char.isWhitespace t)) with
      | some (d2, rest) => some (String.mk d1, String.mk d2, rest)
      | none => none
    | _ => none

/-- Third time pattern at a position: four digits, whitespace, the word
to, whitespace, four digits (the finditer call is case-insensitive). -/
def p3At (s : List Char) : Option (String × String × List Char) :=
  match exactDigits 4 s with
  | none => none
  | some (d1, r) =>
    let w1 := leadCount Char.isWhitespace r
    if w1 = 0 then none
    else
      match r.drop w1 with
      | c1 :: c2 :: t =>
        if c1.toLower = 't' && c2.toLower = 'o' then
          let w2 := leadCount Char.isWhitespace t
          if w2 = 0 then none
          else
            match exactDigits 4 (t.drop w2) with
            | some (d2, rest) => some (String.mk d1, String.mk d2, rest)
            | none => none
        else none
      | _ => none

/-- Lookahead of the fourth time pattern: whitespace, comma, semicolon or
the end. -/
def p4Lookahead (r : List Char) : Bool :=
  match r with
  | [] => true
  | c :: _ => c.isWhitespace || c = ',' || c = ';'

/-- Fourth time pattern at a position: one or two digits, whitespace, the
word to, whitespace, one or two digits, then the lookahead. -/
def p4At (s : List Char) : Option (String × String × List Char) :=
  (d12Cands s).findSome? (fun d1c =>
    let r := d1c.2
    let w1 := leadCount Char.isWhitespace r
    if w1 = 0 then none
    else
      match r.drop w1 with
      | c1 :: c2 :: t =>
        if c1.toLower = 't' && c2.toLower = 'o' then
          let w2 := leadCount Char.isWhitespace t
          if w2 = 0 then none
          else
            (d12Cands (t.drop w2)).findSome? (fun d2c =>
              if p4Lookahead d2c.2 then some (String.mk d1c.1, String.mk d2c.1, d2c.2)
              else none)
        else none
      | _ => none)

/-- re.finditer over a pattern scanner: leftmost, non-overlapping. -/
def finditerP (pAt : List Char → Option (String × String × List Char)) :
    Nat → List Char → List (String × String)
  | 0, _ => []
  | fuel + 1, s =>
    match pAt s with
    | some (g1, g2, rest) => (g1, g2) :: finditerP pAt fuel rest
    | none =>
      match s with
      | [] => []
      | _ :: t => finditerP pAt fuel t

/-- Count of digit characters. -/
def countDigits (s : String) : Nat :=
  (s.toList.filter Char.isDigit).length

/-- Anchored match of one-or-two digits, two digits, optional whitespace,
am or pm (normalize_single_time inserting a colon). -/
def reMatchHMM (s : List Char) : Option (String × String × String) :=
  (d12Cands s).findSome? (fun hc =>
    match exactDigits 2 hc.2 with
    | some (mm, r) =>
      match r.drop (leadCount Char.isWhitespace r) with
      | a :: m :: _ =>
        if (a.toLower = 'a' || a.toLower = 'p') && m.toLower = 'm' then
          some (String.mk hc.1, String.mk mm, String.mk [a, m])
        else none
      | _ => none
    | none => none)

/-- normalize_single_time inside normalize_time_range. -/
def normalize_single_time (t0 : String) : String :=
  let t := pyStrip t0
  let hasAmPm := strContainsCI t "am" || strContainsCI t "pm"
  if hasAmPm then
    if !t.toList.contains ':' && countDigits t ≥ 3 then
      match reMatchHMM t.toList with
      | some (h, mm, ap) => h ++ ":" ++ mm ++ pyUpper ap
      | none => pyUpper t
    else pyUpper t
  else
    let d := t.toList.filter Char.isDigit
    let d :=
      if d.length = 3 then '0' :: d
      else if d.length = 2 then d ++ ['0', '0']
      else if d.length = 1 then '0' :: (d ++ ['0', '0'])
      else d
    zfill (String.mk (d.take 4)) 4

/-- normalize_time_range: both ends normalized, joined with a dash. -/
def normalize_time_range (startT endT : String) : String :=
  normalize_single_time startT ++ "-" ++ normalize_single_time endT

/-- The four time patterns in source order. -/
def timePatternList : List (List Char → Option (String × String × List Char)) :=
  [p1At, p2At, p3At, p4At]

/-- All normalized time ranges a time string yields, over all four
patterns in order. -/
def collectTimeRanges (timeStr : String) : List String :=
  timePatternList.flatMap (fun pAt =>
    (finditerP pAt (timeStr.length + 1) timeStr.toList).map
      (fun g => normalize_time_range g.1 g.2))

/-- The half-day, appointment or closed marker search (case-insensitive,
half and day separated by whitespace). -/
def halfWSDay : List Char → Bool
  | [] => false
  | c :: t =>
    (("half".toList.isPrefixOf ((c :: t).map Char.toLower)) &&
      (let r := (c :: t).drop 4
       let w := leadCount Char.isWhitespace r
       1 ≤ w && "day".toList.isPrefixOf ((r.drop w).map Char.toLower)))
    || halfWSDay t

/-- The special-case marker test of extract_hours_from_remarks. -/
def hasHalfDayMarker (t : String) : Bool :=
  halfWSDay t.toList || strContainsCI t "appointment" || strContainsCI t "closed"

/-- Result record of extract_hours_from_remarks (the metadata dict of the
source carries only logging data and is not modeled). -/
structure HoursFromRemarks where
  weekdays : Option String
  saturday : Option String
  sunday : Option String
  publicday : Option String
deriving DecidableEq, Repr

/-- The empty result. -/
def emptyHours : HoursFromRemarks :=
  ⟨none, none, none, none⟩

/-- re.split on semicolons and newlines. -/
def splitSegmentsAux : List Char → List Char → List String
  | cur, [] => [String.mk cur.reverse]
  | cur, c :: t =>
    if c = ';' || c = '\n' then String.mk cur.reverse :: splitSegmentsAux [] t
    else splitSegmentsAux (c :: cur) t

/-- Segment split of the remarks text. -/
def splitSegments (s : String) : List String :=
  splitSegmentsAux [] s.toList

/-- Removal of the leading dental prefix (case-insensitive, anchored). -/
def stripDental (t : String) : String :=
  let cs := t.toList
  if "(dental)".toList.isPrefixOf (cs.map Char.toLower) then
    let r := cs.drop 8
    String.mk (r.drop (leadCount Char.isWhitespace r))
  else t

/-- Dispatch of one day-pattern hit into the result record, following the
source: range and weekday keys overwrite, saturday and sunday overwrite,
a combo containing both sat and sun fills both days, an individual
weekday fills weekdays only when still unset. -/
def applyDayMatch (res : HoursFromRemarks) (dayKey dayStr fin : String) : HoursFromRemarks :=
  if dayKey = "mon_to_fri" || dayKey = "mon_to_wed" || dayKey = "thu_to_fri"
      || dayKey = "weekdays" then
    { res with weekdays := some fin }
  else if dayKey = "saturday" then { res with saturday := some fin }
  else if dayKey = "sunday" then { res with sunday := some fin }
  else if dayKey = "public_holiday" || dayKey = "eve_of_ph" then
    { res with publicday := some fin }
  else if dayKey = "day_combo" then
    if strContains dayStr "sat" && strContains dayStr "sun" then
      { res with saturday := some fin, sunday := some fin }
    else { res with weekdays := some fin }
  else if dayKey = "monday" || dayKey = "tuesday" || dayKey = "wednesday"
      || dayKey = "thursday" || dayKey = "friday" then
    match res.weekdays with
    | none => { res with weekdays := some fin }
    | some _ => res
  else res

/-- One segment: every day pattern is tried in order, a hit with a
non-empty time value updates the record. -/
def processSegment (res : HoursFromRemarks) (seg0 : String) : HoursFromRemarks :=
  let seg := pyStrip seg0
  if seg = "" then res
  else
    dayPatterns.foldl (fun res kv =>
      match searchDayColon kv.2 seg.toList with
      | none => res
      | some (dayRaw, timeRaw) =>
        let dayStr := pyLower (pyStrip dayRaw)
        let timeStr := pyStrip timeRaw
        let ranges := collectTimeRanges timeStr
        let ranges := if ranges.isEmpty && hasHalfDayMarker timeStr then [timeStr] else ranges
        if ranges.isEmpty then res
        else
          let fin := String.intercalate "," ranges
          if fin = "" then res else applyDayMatch res kv.1 dayStr fin) res

/-- extract_hours_from_remarks: day-keyword plus time-range mining of a
remarks cell. -/
def extract_hours_from_remarks (remarks : Cell) : HoursFromRemarks :=
  match remarks with
  | none => emptyHours
  | some r =>
    if pyStrip r = "" then emptyHours
    else
      let text := stripDental (pyStrip r)
      (splitSegments text).foldl processSegment emptyHours

/-- _is_truly_empty: NaN, blank, nan or none; an explicit CLOSED is not
empty. -/
def is_truly_empty (value : Cell) : Bool :=
  match value with
  | none => true
  | some v =>
    let s := pyLower (pyStrip v)
    s = "" || s = "nan" || s = "none"

/-! Frames and row access. -/

/-- A read sheet: column labels and rows of cells. -/
structure Frame where
  columns : List String
  rows : List (List Cell)
deriving DecidableEq, Repr

/-- row.get(col, default): none when the column is absent, otherwise the
cell. -/
def rowGet (cols : List String) (row : List Cell) (col : String) : Option Cell :=
  match cols.findIdx? (fun c => c == col) with
  | some i => some (row.getD i none)
  | none => none

/-- The complex and simple keys of one day category. -/
def dayTypeKeys (dayType : String) : Option ((String × String × String) × String) :=
  if dayType = "weekday" then some (("mon_fri_am", "mon_fri_pm", "mon_fri_night"), "mon_fri_am")
  else if dayType = "saturday" then some (("sat_am", "sat_pm", "sat_night"), "sat_simple")
  else if dayType = "sunday" then some (("sun_am", "sun_pm", "sun_night"), "sun_simple")
  else if dayType = "public_holiday" then
    some (("holiday_am", "holiday_pm", "holiday_night"), "holiday_simple")
  else none

/-- The remarks-extraction field a day category falls back to. -/
def fallbackField (h : HoursFromRemarks) (dayType : String) : Option String :=
  if dayType = "weekday" then h.weekdays
  else if dayType = "saturday" then h.saturday
  else if dayType = "sunday" then h.sunday
  else if dayType = "public_holiday" then h.publicday
  else none

/-- Strategies 1 to 3 of combine_operating_hours_flexible: the
column-derived hours string of one row (complex AM/PM/NIGHT combination
when more than one complex column is mapped, else the first available
simple or complex column, else CLOSED). -/
def hoursFromColumns (cols : List String) (row : List Cell) (colMap : CMap)
    (complexKeys : String × String × String) (simpleKey : String) : String :=
  let (amK, pmK, nightK) := complexKeys
  let ks := [amK, pmK, nightK]
  let found := ks.filter (fun k => cmMem colMap k)
  let getv := fun (k : String) =>
    if cmMem colMap k then
      match rowGet cols row ((cmLookup colMap k).getD "") with
      | some (some s) => s
      | some none => "CLOSED"
      | none => "CLOSED"
    else "CLOSED"
  if found.length > 1 then
    getv amK ++ "/" ++ getv pmK ++ "/" ++ getv nightK
  else
    match (simpleKey :: ks).find? (fun k => cmMem colMap k) with
    | some k => getv k
    | none => "CLOSED"

/-- One row of combine_operating_hours_flexible, with the remarks
fallback (strategy 4) firing exactly on a truly-empty column result. -/
def combineRow (cols : List String) (row : List Cell) (colMap : CMap) (dayType : String) :
    String :=
  match dayTypeKeys dayType with
  | none => "CLOSED/CLOSED/CLOSED"
  | some (ck, sk) =>
    let current := hoursFromColumns cols row colMap ck sk
    if is_truly_empty (some current) && cmMem colMap "remarks" then
      match rowGet cols row ((cmLookup colMap "remarks").getD "") with
      | some (some r) =>
        let extracted := extract_hours_from_remarks (some r)
        match fallbackField extracted dayType with
        | some v => if v = "" then current else v
        | none => current
      | _ => current
    else current

/-- combine_operating_hours_flexible over all rows of a frame. -/
def combine_operating_hours_flexible (cols : List String) (rows : List (List Cell))
    (colMap : CMap) (dayType : String) : List String :=
  rows.map (fun row => combineRow cols row colMap dayType)

/-! combine_phone_remarks, construct_address and smart_column_fallback,
app.py lines 1156-1557. -/

/-- combine_phone_remarks: telephone with remarks appended after a dash
when the remarks are present and not the nan artifact. -/
def combine_phone_remarks (phone remarks : Cell) : String :=
  let phoneStr := match phone with | some p => p | none => ""
  let remarksStr := match remarks with | some r => r | none => ""
  if remarksStr ≠ "" && pyLower remarksStr ≠ "nan" then phoneStr ++ " - " ++ remarksStr
  else phoneStr

/-- Address component roles in priority order with their prefixes. -/
def addressComponents : List (String × String) :=
  [("address_blk", "Blk"), ("address_unit", "#"), ("address_road", ""),
   ("address_building", "")]

/-- The component assembly of construct_address for one row, skipping
empty or nan-like fragments, deduplicating source columns referenced by
several roles, and applying the prefix rules. -/
def constructAddressComponents (cols : List String) (colMap : CMap) (row : List Cell) :
    String :=
  let step := fun (st : List String × List String) (comp : String × String) =>
    if cmMem colMap comp.1 && !st.1.contains ((cmLookup colMap comp.1).getD "") then
      let col := (cmLookup colMap comp.1).getD ""
      let used := col :: st.1
      match rowGet cols row col with
      | some (some v) =>
        if pyStrip v ≠ "" && pyLower v ≠ "nan" && pyLower v ≠ "" && pyLower v ≠ "none" then
          let vs := pyStrip v
          let part :=
            if comp.1 = "address_blk"
                && (strContains (pyLower vs) "blk" || strContains (pyLower vs) "block") then vs
            else if comp.1 = "address_unit"
                && (strContains vs "#" || strContains (pyLower vs) "unit") then vs
            else if comp.2 ≠ "" && !(comp.2.toList.isPrefixOf vs.toList) then
              comp.2 ++ " " ++ vs
            else vs
          (used, st.2 ++ [part])
        else (used, st.2)
      | _ => (used, st.2)
    else st
  let parts := (addressComponents.foldl step ([], [])).2
  if parts.isEmpty then "" else String.intercalate " " parts

/-- construct_address for one row: a complete address column first, then
the SP-clinic address1 column, then the component assembly. -/
def construct_address_row (cols : List String) (colMap : CMap) (row : List Cell) : String :=
  let fromFull : Option String :=
    if cmMem colMap "address" then
      match rowGet cols row ((cmLookup colMap "address").getD "") with
      | some (some v) =>
        let s := pyStrip v
        if s ≠ "" && pyLower s ≠ "nan" && pyLower s ≠ "" && pyLower s ≠ "none" then some s
        else none
      | _ => none
    else none
  match fromFull with
  | some s => s
  | none =>
    let fromA1 : Option String :=
      if cmMem colMap "address1" then
        match rowGet cols row ((cmLookup colMap "address1").getD "") with
        | some (some v) =>
          if pyStrip v ≠ "" && pyLower v ≠ "nan" && pyLower v ≠ "" && pyLower v ≠ "none" then
            some (pyStrip v)
          else none
        | _ => none
      else none
    match fromA1 with
    | some s => s
    | none => constructAddressComponents cols colMap row

/-- smart_column_fallback for clinic_id: generated AUTO ids from the
clinic name or the row index. -/
def autoClinicIds (cols : List String) (colMap : CMap) (rows : List (List Cell)) :
    List String :=
  if cmMem colMap "clinic_name" then
    rows.enum.map (fun p =>
      let name := pyStr ((rowGet cols p.2 ((cmLookup colMap "clinic_name").getD "")).getD none)
      "AUTO_" ++ zfill (toString (p.1 + 1)) 4 ++ "_" ++
        String.mk (((name.toList.map (fun c => if c = ' ' then '_' else c)).map
          Char.toUpper).take 10))
  else
    rows.enum.map (fun p => "AUTO_" ++ zfill (toString (p.1 + 1)) 4)

/-- smart_column_fallback for region: the area column with NaN replaced by
TCM, or the TCM constant. -/
def zoneFallback (cols : List String) (colMap : CMap) (row : List Cell) : Cell :=
  if cmMem colMap "area" then
    match rowGet cols row ((cmLookup colMap "area").getD "") with
    | some (some v) => some v
    | _ => some "TCM"
  else some "TCM"

/-- smart_column_fallback for area: the region column with NaN replaced by
SINGAPORE, or the SINGAPORE constant. -/
def areaFallback (cols : List String) (colMap : CMap) (row : List Cell) : Cell :=
  if cmMem colMap "region" then
    match rowGet cols row ((cmLookup colMap "region").getD "") with
    | some (some v) => some v
    | _ => some "SINGAPORE"
  else some "SINGAPORE"

/-! The termination filter applied inside transform_sheet, app.py lines
1774-1809, and the termination-set construction, lines 682-782. -/

/-- A termination key: normalized provider code with an optional
normalized postal code. -/
abbrev TKey := String × Option String

/-- The row predicate of the termination filter: a row is marked
terminated only when both its normalized provider code and its normalized
postal code are present, and either the exact pair or the code-only
fallback key is in the set. -/
def is_terminated_row (tids : List TKey) (codeCell postalCell : Cell) : Bool :=
  match normalize_code codeCell, normalize_code postalCell with
  | some pc, some po => tids.contains (pc, some po) || tids.contains (pc, none)
  | _, _ => false

/-- One step of the termination scan: append the removal bit and record
the removed provider code once. -/
def terminationStep (tids : List TKey) (st : List Bool × List String) (pr : Cell × Cell) :
    List Bool × List String :=
  let rm := is_terminated_row tids pr.1 pr.2
  let codes :=
    if rm then
      match normalize_code pr.1 with
      | some pc => if st.2.contains pc then st.2 else st.2 ++ [pc]
      | none => st.2
    else st.2
  (st.1 ++ [rm], codes)

/-- The termination scan over the (code, postal) pairs of a sheet:
the removal mask and the deduplicated list of removed provider codes. -/
def terminationScan (tids : List TKey) (pairs : List (Cell × Cell)) :
    List Bool × List String :=
  pairs.foldl (terminationStep tids) ([], [])

/-- Keep the entries whose mask bit is false. -/
def maskFilter {α : Type} (mask : List Bool) (l : List α) : List α :=
  ((mask.zip l).filter (fun p => !p.1)).map Prod.snd

/-! transform_sheet, app.py lines 1559-2036, for the standard format (the
merged-header adapter of the Alliance-Tokio branch operates on workbook
objects and merged-cell metadata outside the cell model; sheets enter
already read, as a Frame).  The geocoding environment carries the process
lookup table and the stubbed remote geocoder; a fresh service with zeroed
counters is constructed per sheet as in the source. -/

structure GeoEnv where
  use_google_api : Bool
  has_geolocator : Bool
  lookup : List (String × Rat × Rat)
  remote : String → Option String → Except Unit (Option (Rat × Rat))

/-- The per-sheet GeocodingService construction. -/
def mkService (env : GeoEnv) : GeoService :=
  ⟨env.use_google_api, env.has_geolocator, env.lookup, env.remote, ⟨0, 0, 0⟩⟩

/-- One canonical output record: the columns of df_transformed.  The map
URL holds the coordinate pair the source formats into its query string. -/
structure CanonicalRecord where
  code : Cell
  name : Cell
  zone : Cell
  area : Cell
  specialty : Cell
  doctor : Cell
  address1 : String
  address2 : Cell
  address3 : Cell
  postalCode : Option String
  country : String
  phoneNumber : String
  monToFri : String
  saturday : String
  sunday : String
  publicHoliday : String
  latitude : Option Rat
  longitude : Option Rat
  googleMapURL : Option (Rat × Rat)
deriving DecidableEq, Repr

/-- The value a transform_sheet run returns on success. -/
structure SheetResult where
  records : List CanonicalRecord
  terminated_count : Nat
  filtered_provider_codes : List String
  geocode_stats : GeoStats
deriving DecidableEq, Repr

/-- transform_sheet on a read frame.  The error string is the message the
outer exception handler of the source builds. -/
def transform_sheet (sheetName : String) (frame : Frame) (terminatedIds : List TKey)
    (env : GeoEnv) : Except String SheetResult :=
  let cols := frame.columns.map pyStrip
  let colMap0 := map_columns cols
  let colMapE : Except String CMap :=
    if cmMem colMap0 "clinic_name" then Except.ok colMap0
    else
      let inferred := infer_columns_from_data cols
      if cmMem inferred "clinic_name" then Except.ok (cmUpdate colMap0 inferred)
      else
        Except.error ("Error transforming sheet " ++ sheetName ++ ": Sheet '" ++ sheetName
          ++ "' missing required 'clinic name' column after inference attempt")
  match colMapE with
  | Except.error e => Except.error e
  | Except.ok colMap =>
    let getCell := fun (row : List Cell) (key : String) =>
      (rowGet cols row ((cmLookup colMap key).getD "")).getD none
    let validRow := fun (row : List Cell) =>
      if cmMem colMap "clinic_name" then
        match getCell row "clinic_name" with
        | some s => pyStrip s ≠ ""
        | none => false
      else if cmMem colMap "clinic_id" then
        match getCell row "clinic_id" with
        | some s => pyStrip s ≠ ""
        | none => false
      else true
    let rows := frame.rows.filter validRow
    let codes : List Cell :=
      if cmMem colMap "clinic_id" then rows.map (fun r => getCell r "clinic_id")
      else (autoClinicIds cols colMap rows).map (fun s => some s)
    let names : List Cell := rows.map (fun r => getCell r "clinic_name")
    let zones : List Cell :=
      if cmMem colMap "region" then rows.map (fun r => getCell r "region")
      else rows.map (fun r => zoneFallback cols colMap r)
    let areas : List Cell :=
      if cmMem colMap "area" then rows.map (fun r => getCell r "area")
      else rows.map (fun r => areaFallback cols colMap r)
    let specialties : List Cell :=
      if cmMem colMap "specialty" then rows.map (fun r => getCell r "specialty")
      else rows.map (fun _ => none)
    let doctors : List Cell :=
      if cmMem colMap "doctor_name" then rows.map (fun r => getCell r "doctor_name")
      else rows.map (fun _ => none)
    let address1s := rows.map (fun r => construct_address_row cols colMap r)
    let address2s : List Cell :=
      if cmMem colMap "address2" then
        rows.map (fun r => some (match getCell r "address2" with | some s => s | none => ""))
      else rows.map (fun _ => none)
    let address3s : List Cell :=
      if cmMem colMap "address3" then
        rows.map (fun r => some (match getCell r "address3" with | some s => s | none => ""))
      else rows.map (fun _ => none)
    let postals : List (Option String) :=
      (rows.zip address1s).map (fun p =>
        let fromDedicated : Option String :=
          if cmMem colMap "postal_code" then
            match getCell p.1 "postal_code" with
            | some v =>
              if pyStrip v ≠ "" && pyStrip v ≠ "nan" && pyStrip v ≠ "None" then
                some (pyStrip v)
              else none
            | none => none
          else none
        match fromDedicated with
        | some pc => some pc
        | none =>
          let fromA4 : Option String :=
            if cmMem colMap "address4" then
              match getCell p.1 "address4" with
              | some v => if pyStrip v ≠ "" then extract_postal_code (some v) none else none
              | none => none
            else none
          match fromA4 with
          | some pc => some pc
          | none =>
            if pyStrip p.2 ≠ "" then extract_postal_code (some p.2) none else none)
    let doFilter := !terminatedIds.isEmpty && cmMem colMap "clinic_id"
    let scan :=
      if doFilter then terminationScan terminatedIds (codes.zip postals)
      else (rows.map (fun _ => false), [])
    let mask := scan.1
    let filteredCodes := scan.2
    let terminatedCount := mask.count true
    let rowsF := maskFilter mask rows
    let codesF := maskFilter mask codes
    let namesF := maskFilter mask names
    let zonesF := maskFilter mask zones
    let areasF := maskFilter mask areas
    let specialtiesF := maskFilter mask specialties
    let doctorsF := maskFilter mask doctors
    let address1sF := maskFilter mask address1s
    let address2sF := maskFilter mask address2s
    let address3sF := maskFilter mask address3s
    let postalsF := maskFilter mask postals
    let n := rowsF.length
    let idxs := List.range n
    let countries := idxs.map (fun i =>
      let combined := String.intercalate " "
        [pyStr (zonesF.getD i none), "", pyStr (areasF.getD i none),
         address1sF.getD i "", pyStr (address2sF.getD i none),
         pyStr (address3sF.getD i none), pyStr (postalsF.getD i none)]
      detect_country (some combined))
    let phones : List String :=
      if cmMem colMap "telephone" then
        if cmMem colMap "remarks" then
          rowsF.map (fun r => combine_phone_remarks (getCell r "telephone") (getCell r "remarks"))
        else rowsF.map (fun r => pyStr (getCell r "telephone"))
      else rowsF.map (fun _ => "")
    let monFri := combine_operating_hours_flexible cols rowsF colMap "weekday"
    let sats := combine_operating_hours_flexible cols rowsF colMap "saturday"
    let suns := combine_operating_hours_flexible cols rowsF colMap "sunday"
    let hols := combine_operating_hours_flexible cols rowsF colMap "public_holiday"
    let svc0 := mkService env
    let geoRun := idxs.foldl
      (fun (st : Except Unit (List (Option Rat × Option Rat × String) × GeoService)) i =>
        match st with
        | Except.error e => Except.error e
        | Except.ok (acc, svc) =>
          match geocode svc (postalsF.getD i none) (some (address1sF.getD i ""))
              (some (countries.getD i "")) with
          | Except.error e => Except.error e
          | Except.ok ((la, lo, m), st2) =>
            Except.ok (acc ++ [(la, lo, m)], { svc with geocode_stats := st2 }))
      (Except.ok ([], svc0))
    match geoRun with
    | Except.error _ =>
      Except.error ("Error transforming sheet " ++ sheetName
        ++ ": cannot convert float infinity to integer")
    | Except.ok (geos, svcFinal) =>
      let records := idxs.map (fun i =>
        let g := geos.getD i (none, none, "failed")
        { code := codesF.getD i none
          name := namesF.getD i none
          zone := zonesF.getD i none
          area := areasF.getD i none
          specialty := specialtiesF.getD i none
          doctor := doctorsF.getD i none
          address1 := address1sF.getD i ""
          address2 := address2sF.getD i none
          address3 := address3sF.getD i none
          postalCode := postalsF.getD i none
          country := countries.getD i ""
          phoneNumber := phones.getD i ""
          monToFri := monFri.getD i ""
          saturday := sats.getD i ""
          sunday := suns.getD i ""
          publicHoliday := hols.getD i ""
          latitude := g.1
          longitude := g.2.1
          googleMapURL :=
            match g.1, g.2.1 with
            | some la, some lo => some (la, lo)
            | _, _ => none : CanonicalRecord })
      Except.ok ⟨records, terminatedCount, filteredCodes, svcFinal.geocode_stats⟩

/-! classify_sheets (app.py lines 630-652), the termination-set builder
and transform_excel_multi_sheet (lines 2038-2243). -/

/-- The termination-sheet name lexicon. -/
def terminationLexicon : List String :=
  ["terminat", "remov", "cancel", "delist"]

/-- The panel-sheet name lexicon. -/
def panelLexicon : List String :=
  ["gp", "tcm", "dental", "clinic", "panel",
   "sp list", "sp clinic", "specialist",
   "sg", "my", "msia", "malaysia", "singapore",
   "blue", "red", "flexi", "aia",
   "medical", "health", "doctor",
   "alliance", "tokio", "marine", "provider"]

/-- classify_sheets: termination names first, then panel names; unmatched
sheets are silently excluded. -/
def classify_sheets (names : List String) : List String × List String :=
  names.foldl (fun (st : List String × List String) s =>
    let l := pyLower s
    if terminationLexicon.any (fun t => strContains l t) then (st.1, st.2 ++ [s])
    else if panelLexicon.any (fun t => strContains l t) then (st.1 ++ [s], st.2)
    else st) ([], [])

/-- extract_terminated_clinic_ids for one termination frame: the column
cascades for the provider-code and postal-code columns, dual keys when
both are found, address-extraction fallback degrading to code-only keys
otherwise. -/
def extract_terminated_from_frame (frame : Frame) : List TKey :=
  let cols := frame.columns.map pyStrip
  let idCols :=
    let c1 := cols.filter (fun c =>
      strContains (pyLower c) "clinic" && strContains (pyLower c) "id")
    if !c1.isEmpty then c1
    else
      let c2 := cols.filter (fun c => strContains (pyLower c) "provider"
        && (strContains (pyLower c) "code" || strContains (pyLower c) "id"))
      if !c2.isEmpty then c2
      else cols.filter (fun c => strContains (pyLower c) "code")
  let postalCols :=
    let p1 := cols.filter (fun c =>
      strContains (pyLower c) "postal" && strContains (pyLower c) "code")
    if !p1.isEmpty then p1
    else
      let p2 := cols.filter (fun c =>
        strContains (pyLower c) "post" && strContains (pyLower c) "code")
      if !p2.isEmpty then p2
      else
        let p3 := cols.filter (fun c => pyLower c = "postalcode")
        if !p3.isEmpty then p3
        else
          let p4 := cols.filter (fun c => pyStrip (pyLower c) = "postal")
          if !p4.isEmpty then p4
          else cols.filter (fun c => pyStrip (pyLower c) = "post")
  match idCols.head?, postalCols.head? with
  | some idc, some pc =>
    frame.rows.filterMap (fun r =>
      match normalize_code ((rowGet cols r idc).getD none),
          normalize_code ((rowGet cols r pc).getD none) with
      | some a, some b => some ((a, some b) : TKey)
      | _, _ => none)
  | some idc, none =>
    let addrCols := cols.filter (fun c => strContains (pyLower c) "address")
    frame.rows.filterMap (fun r =>
      match normalize_code ((rowGet cols r idc).getD none) with
      | none => none
      | some pcode =>
        let postal : Option String :=
          if addrCols.isEmpty then none
          else
            let parts := addrCols.filterMap (fun c => (rowGet cols r c).getD none)
            let combined := String.intercalate " " parts
            match extract_postal_code (some combined) none with
            | some p => normalize_code (some p)
            | none => none
        match postal with
        | some p => some ((pcode, some p) : TKey)
        | none => some ((pcode, none) : TKey))
  | none, _ => []

/-- The termination set over all termination sheets of a workbook
(membership-only, so a list with duplicates is the set). -/
def extract_terminated_clinic_ids (wb : List (String × Frame)) (termNames : List String) :
    List TKey :=
  termNames.foldl (fun acc nm =>
    match wb.find? (fun p => p.1 == nm) with
    | some nf => acc ++ extract_terminated_from_frame nf.2
    | none => acc) []

/-- Order-preserving deduplication (dict.fromkeys). -/
def dedupKeepOrder (l : List String) : List String :=
  l.foldl (fun acc s => if acc.contains s then acc else acc ++ [s]) []

/-- One output entry of the multi-sheet result. -/
structure SheetOutput where
  sheet_name : String
  records : List CanonicalRecord
  records_processed : Nat
  terminated_clinics_filtered : Nat
  filtered_provider_codes : List String
deriving DecidableEq, Repr

/-- The multi-sheet result: workbook failure with its message, or the
outputs with the summary counts. -/
inductive MultiResult where
  | failure (message : String)
  | success (outputs : List SheetOutput) (total_records : Nat)
      (terminated_clinics_filtered : Nat) (filtered_provider_codes : List String)
deriving DecidableEq, Repr

/-- The per-panel-sheet loop of transform_excel_multi_sheet: a failing
sheet aborts the loop with its name and message; a successful sheet
yields one output, or a Singapore and a Malaysia output when its records
mix both countries. -/
def processPanels (tids : List TKey) (env : GeoEnv) :
    List (String × Frame) → Except (String × String) (List SheetOutput)
  | [] => Except.ok []
  | (nm, f) :: rest =>
    match transform_sheet nm f tids env with
    | Except.error msg => Except.error (nm, msg)
    | Except.ok res =>
      let countries := dedupKeepOrder (res.records.map (fun r => r.country))
      let mixed := (countries.filter (fun c => c = "SINGAPORE" || c = "MALAYSIA")).length > 1
      let outputs : List SheetOutput :=
        if mixed then
          let sg := res.records.filter (fun r => r.country = "SINGAPORE")
          let my := res.records.filter (fun r => r.country = "MALAYSIA")
          (if !sg.isEmpty then
            [⟨"SINGAPORE", sg, sg.length, res.terminated_count, res.filtered_provider_codes⟩]
           else [])
          ++ (if !my.isEmpty then [⟨"MALAYSIA", my, my.length, 0, []⟩] else [])
        else
          [⟨nm, res.records, res.records.length, res.terminated_count,
            res.filtered_provider_codes⟩]
      match processPanels tids env rest with
      | Except.error e => Except.error e
      | Except.ok more => Except.ok (outputs ++ more)

/-- transform_excel_multi_sheet on a workbook of read frames. -/
def transform_excel_multi_sheet (wb : List (String × Frame)) (env : GeoEnv) : MultiResult :=
  let cls := classify_sheets (wb.map Prod.fst)
  let tids := extract_terminated_clinic_ids wb cls.2
  let panelFrames := wb.filter (fun p => cls.1.contains p.1)
  match processPanels tids env panelFrames with
  | Except.error e =>
    MultiResult.failure ("Failed to process sheet '" ++ e.1 ++ "': " ++ e.2)
  | Except.ok outputs =>
    if outputs.isEmpty then
      MultiResult.failure
        "No panel sheets found to process. Expected sheets with names containing: GP, TCM, dental, clinic, or panel."
    else
      MultiResult.success outputs
        (outputs.foldl (fun a o => a + o.records_processed) 0)
        (outputs.foldl (fun a o => a + o.terminated_clinics_filtered) 0)
        (dedupKeepOrder (outputs.flatMap (fun o => o.filtered_provider_codes)))

/-! The process-level lookup cache (_load_postal_code_lookup_once, app.py
lines 72-201) and a workbook run against it. -/

/-- One reference-dataset row: postal, latitude and longitude cells (the
CSV is read with a string dtype for the postal column). -/
abbrev RefRow := Cell × Cell × Cell

/-- Association set with dict semantics for the lookup table. -/
def assocSet (l : List (String × Rat × Rat)) (k : String) (v : Rat × Rat) :
    List (String × Rat × Rat) :=
  match l with
  | [] => [(k, v)]
  | (a, b) :: rest => if a = k then (k, v) :: rest else (a, b) :: assocSet rest k v

/-- The lookup-table construction: postal cells zero-filled to six digits,
rows with a missing or unparsable postal code or coordinates skipped
(non-finite reference coordinates are treated as skipped too). -/
def buildLookup (ds : List RefRow) : List (String × Rat × Rat) :=
  ds.foldl (fun lkp row =>
    match row.1 with
    | none => lkp
    | some p =>
      if p = "" then lkp
      else
        let key := zfill (pyStrip p) 6
        match row.2.1, row.2.2 with
        | some la, some lo =>
          match pyFloatParse la, pyFloatParse lo with
          | some (PyFloat.fin ma ea), some (PyFloat.fin mb eb) =>
            assocSet lkp key (pyFinToRat ma ea, pyFinToRat mb eb)
          | _, _ => lkp
        | _, _ => lkp) []

/-- The lazy singleton: an empty cache builds the table once and caches
it, a filled cache is reused unchanged. -/
def loadLookupOnce (cache : Option (List (String × Rat × Rat))) (ds : List RefRow) :
    List (String × Rat × Rat) × Option (List (String × Rat × Rat)) :=
  match cache with
  | some l => (l, some l)
  | none =>
    let l := buildLookup ds
    (l, some l)

/-- One workbook transformation against the process state: the lookup
cache before the run and the reference dataset, the workbook, the API
configuration and the stubbed remote geocoder; returns the result and the
cache after the run. -/
def runWorkbook (cache : Option (List (String × Rat × Rat))) (ds : List RefRow)
    (wb : List (String × Frame)) (useApi hasGeo : Bool)
    (remote : String → Option String → Except Unit (Option (Rat × Rat))) :
    MultiResult × Option (List (String × Rat × Rat)) :=
  let lc := loadLookupOnce cache ds
  (transform_excel_multi_sheet wb ⟨useApi, hasGeo, lc.1, remote⟩, lc.2)

/-! Fixtures and specification-side definitions used by the claim
theorems below. -/

/-- A stubbed remote geocoder that never finds anything. -/
def stubNone : String → Option String → Except Unit (Option (Rat × Rat)) :=
  fun _ _ => Except.ok none

/-- A stubbed remote geocoder that always returns one coordinate pair. -/
def stubHit : String → Option String → Except Unit (Option (Rat × Rat)) :=
  fun _ _ => Except.ok (some (3, 4))

/-- A stubbed remote geocoder that always raises. -/
def stubRaise : String → Option String → Except Unit (Option (Rat × Rat)) :=
  fun _ _ => Except.error ()

/-- The removal condition exactly as the specification words it: the
normalized (code, postal) pair is in the termination set, or the
(code, absent) pair is (a row whose code does not normalize has no key in
the set).  Modelled from the claim text, to be compared against
is_terminated_row. -/
def C1_spec_removal (tids : List TKey) (codeCell postalCell : Cell) : Bool :=
  match normalize_code codeCell with
  | some pc => tids.contains (pc, normalize_code postalCell) || tids.contains (pc, none)
  | none => false

/-- The remarks text of the C6 fixture. -/
def remarksFixture : String :=
  "Mon-Fri:0900-1230,1400-1600;Sat/Sun:0900-1200"

/-! Association-map lemmas for the column-mapping theorems. -/

theorem cmLookup_dictSet : ∀ (m : CMap) (a b k : String),
    cmLookup (dictSet m a b) k = if k = a then some b else cmLookup m k
  | [], a, b, k => by
    simp only [dictSet, cmLookup]
    by_cases h : a = k
    · subst h; simp
    · rw [if_neg h, if_neg (fun hh => h hh.symm)]
  | (x, y) :: tl, a, b, k => by
    simp only [dictSet]
    by_cases hxa : x = a
    · subst hxa
      rw [if_pos rfl]
      simp only [cmLookup]
      by_cases hxk : x = k
      · subst hxk; simp
      · rw [if_neg hxk, if_neg (fun hh => hxk hh.symm), if_neg hxk]
    · rw [if_neg hxa]
      simp only [cmLookup]
      by_cases hxk : x = k
      · subst hxk
        rw [if_pos rfl, if_neg hxa, if_pos rfl]
      · rw [if_neg hxk, cmLookup_dictSet tl a b k]
        by_cases hka : k = a
        · rw [if_pos hka, if_pos hka]
        · rw [if_neg hka, if_neg hka, if_neg hxk]

theorem mem_keys_dictSet : ∀ (m : CMap) (a b k : String),
    k ∈ (dictSet m a b).map Prod.fst ↔ k ∈ m.map Prod.fst ∨ k = a
  | [], a, b, k => by simp [dictSet]
  | (x, y) :: tl, a, b, k => by
    simp only [dictSet]
    by_cases hxa : x = a
    · subst hxa
      rw [if_pos rfl]
      simp only [List.map_cons, List.mem_cons]
      tauto
    · rw [if_neg hxa]
      simp only [List.map_cons, List.mem_cons, mem_keys_dictSet tl a b k]
      tauto

theorem keys_nodup_dictSet : ∀ (m : CMap) (a b : String),
    (m.map Prod.fst).Nodup → ((dictSet m a b).map Prod.fst).Nodup
  | [], a, b, _ => by simp [dictSet]
  | (x, y) :: tl, a, b, h => by
    simp only [List.map_cons, List.nodup_cons] at h
    simp only [dictSet]
    by_cases hxa : x = a
    · subst hxa
      rw [if_pos rfl]
      simp only [List.map_cons, List.nodup_cons]
      exact ⟨h.1, h.2⟩
    · rw [if_neg hxa]
      simp only [List.map_cons, List.nodup_cons]
      refine ⟨fun hmem => ?_, keys_nodup_dictSet tl a b h.2⟩
      rcases (mem_keys_dictSet tl a b x).1 hmem with hin | heq
      · exact h.1 hin
      · exact hxa heq

theorem foldl_keys_nodup {β : Type} (f : CMap → β → CMap)
    (hf : ∀ m b, (m.map Prod.fst).Nodup → ((f m b).map Prod.fst).Nodup) :
    ∀ (l : List β) (m : CMap), (m.map Prod.fst).Nodup → ((l.foldl f m).map Prod.fst).Nodup
  | [], _, h => h
  | b :: t, m, h => foldl_keys_nodup f hf t (f m b) (hf m b h)

theorem foldl_cmLookup_preserve {β : Type} (f : CMap → β → CMap)
    (hf : ∀ m b k v, cmLookup m k = some v → cmLookup (f m b) k = some v) :
    ∀ (l : List β) (m : CMap) (k v : String),
      cmLookup m k = some v → cmLookup (l.foldl f m) k = some v
  | [], _, _, _, h => h
  | b :: t, m, k, v, h => foldl_cmLookup_preserve f hf t (f m b) k v (hf m b k v h)

theorem cmMem_false_lookup_none {m : CMap} {ec : String} (hm : ¬cmMem m ec = true) :
    cmLookup m ec = none := by
  cases hc : cmLookup m ec with
  | none => rfl
  | some w => exact absurd (by simp [cmMem, hc]) hm

/-- Phase 1 binds each canonical key at most once: the keys of its output
map are without duplicates. -/
theorem phase1_keys_nodup (d : CMap) : ((phase1 d).map Prod.fst).Nodup := by
  unfold phase1
  refine foldl_keys_nodup _ ?_ mappings [] (by simp)
  intro m kv h
  cases hf : kv.2.find? (fun p => cmMem d p) with
  | none => simpa [hf] using h
  | some p =>
    simp only [hf]
    exact keys_nodup_dictSet m kv.1 _ h

/-- One phase-2 binding leaves every other key untouched. -/
theorem phase2Step_preserve (m : CMap) (key : String) (o : Option String)
    (cond : String → Bool) (k : String) (hk : k ≠ key) :
    cmLookup (phase2Step m key o cond) k = cmLookup m k := by
  cases o with
  | none => rfl
  | some nc =>
    by_cases hc : cond nc
    · simp only [phase2Step, hc, if_pos, cmLookup_dictSet, if_neg hk]
    · simp [phase2Step, hc]

/-- Phase 2 can rebind only the three sequential keys; every other key
keeps its binding. -/
theorem phase2_preserve (cols : List String) (m : CMap) (k : String)
    (h1 : k ≠ "sat_simple") (h2 : k ≠ "sun_simple") (h3 : k ≠ "holiday_simple") :
    cmLookup (phase2 cols m) k = cmLookup m k := by
  unfold phase2
  split
  · rfl
  · split
    · rfl
    · rw [phase2Step_preserve _ _ _ _ _ h3, phase2Step_preserve _ _ _ _ _ h2,
        phase2Step_preserve _ _ _ _ _ h1]

/-- Phase 3 only fills keys not already resolved: every existing binding
is preserved. -/
theorem phase3_preserve (d m : CMap) (k v : String) (h : cmLookup m k = some v) :
    cmLookup (phase3 d m) k = some v := by
  unfold phase3
  refine foldl_cmLookup_preserve _ ?_ _ m k v h
  intro m2 ec k2 v2 h2
  by_cases hm : cmMem m2 ec
  · simp [hm, h2]
  · have hne : k2 ≠ ec := by
      intro he
      rw [he, cmMem_false_lookup_none hm] at h2
      exact Option.noConfusion h2
    simp only [hm, Bool.false_eq_true, if_false]
    cases hfind : (((mappings.find? (fun kv => kv.1 == ec)).map Prod.snd).getD []).findSome?
        (fun p => getCloseMatch1 p (d.map Prod.fst)
          (if ec = "region" || ec = "area" then 4 else 3) 5) with
    | none => simpa [hfind] using h2
    | some bst =>
      simp only [hfind, cmLookup_dictSet, if_neg hne]
      exact h2

/-- Phase 4 only fills keys not already resolved: every existing binding
is preserved. -/
theorem phase4_preserve (d m : CMap) (k v : String) (h : cmLookup m k = some v) :
    cmLookup (phase4 d m) k = some v := by
  unfold phase4
  refine foldl_cmLookup_preserve _ ?_ _ m k v h
  intro m2 kv k2 v2 h2
  by_cases hm : cmMem m2 kv.1
  · simp [hm, h2]
  · have hne : k2 ≠ kv.1 := by
      intro he
      rw [he, cmMem_false_lookup_none hm] at h2
      exact Option.noConfusion h2
    simp only [hm, Bool.false_eq_true, if_false]
    cases hfind : d.findSome? (fun colkv =>
        if kv.2.any (fun kw =>
             strContains colkv.1 kw && decide (kw.length * 5 > colkv.1.length * 2))
        then some colkv.1 else none) with
    | none => simpa [hfind] using h2
    | some colName =>
      simp only [hfind, cmLookup_dictSet, if_neg hne]
      exact h2

/-- The mask component of the termination scan is the pointwise removal
predicate over the pairs. -/
theorem terminationScan_mask (tids : List TKey) :
    ∀ (pairs : List (Cell × Cell)) (acc : List Bool) (cs : List String),
      (pairs.foldl (terminationStep tids) (acc, cs)).1
        = acc ++ pairs.map (fun p => is_terminated_row tids p.1 p.2)
  | [], acc, cs => by simp
  | p :: t, acc, cs => by
    simp only [List.foldl_cons, terminationStep]
    rw [terminationScan_mask tids t]
    simp

/-! Geocoding outcome lemmas: the possible results of one address call,
one postal-lookup call and one full geocode call, with their statistics. -/

/-- geocode_by_address never reads the postal-code lookup table. -/
theorem gba_lookup_free (u hg : Bool) (lkp lkp' : List (String × Rat × Rat))
    (r : String → Option String → Except Unit (Option (Rat × Rat))) (st : GeoStats)
    (address : Cell) (country : Option String) :
    geocode_by_address ⟨u, hg, lkp, r, st⟩ address country
      = geocode_by_address ⟨u, hg, lkp', r, st⟩ address country := by
  cases address <;> rfl

/-- The three outcomes of geocode_by_address: untouched counters on an
early exit, api_calls bumped on a hit, api_calls and failures bumped on a
miss or a caught exception. -/
theorem gba_cases (svc : GeoService) (address : Cell) (country : Option String) :
    geocode_by_address svc address country = ((none, none), svc.geocode_stats)
    ∨ (∃ la lo, geocode_by_address svc address country
        = ((some la, some lo),
           { svc.geocode_stats with api_calls := svc.geocode_stats.api_calls + 1 }))
    ∨ geocode_by_address svc address country
        = ((none, none),
           ⟨svc.geocode_stats.postal_matches, svc.geocode_stats.api_calls + 1,
             svc.geocode_stats.failures + 1⟩) := by
  cases address with
  | none => exact Or.inl rfl
  | some a =>
    simp only [geocode_by_address]
    split
    · exact Or.inl rfl
    · cases hr : svc.remote (regionBias (pyStrip a) country).2
          (regionBias (pyStrip a) country).1 with
      | error e => simp only [hr]; exact Or.inr (Or.inr trivial)
      | ok o =>
        cases o with
        | none => simp only [hr]; exact Or.inr (Or.inr trivial)
        | some p => simp only [hr]; exact Or.inr (Or.inl ⟨p.1, p.2, rfl⟩)

/-- The three outcomes of geocode_by_postal_code: the uncaught overflow
(with its normalization witness), a miss with untouched counters, or a
hit bumping postal_matches. -/
theorem gbp_cases (svc : GeoService) (postal : Cell) :
    (geocode_by_postal_code svc postal = Except.error ()
      ∧ normalize_postal_key postal = Except.error ())
    ∨ geocode_by_postal_code svc postal = Except.ok ((none, none), svc.geocode_stats)
    ∨ (∃ la lo, geocode_by_postal_code svc postal
        = Except.ok ((some la, some lo),
            { svc.geocode_stats with
              postal_matches := svc.geocode_stats.postal_matches + 1 })) := by
  cases hn : normalize_postal_key postal with
  | error e =>
    cases e
    exact Or.inl ⟨by simp [geocode_by_postal_code, hn], rfl⟩
  | ok v =>
    cases v with
    | none => exact Or.inr (Or.inl (by simp [geocode_by_postal_code, hn]))
    | some key =>
      cases hl : lookupCoord svc.postal_code_lookup key with
      | none => exact Or.inr (Or.inl (by simp [geocode_by_postal_code, hn, hl]))
      | some p =>
        exact Or.inr (Or.inr ⟨p.1, p.2, by simp [geocode_by_postal_code, hn, hl]⟩)

/-- The complete outcome analysis of one geocode call: the only error is
the uncaught overflow of a non-Malaysian postal normalization, and every
ordinary outcome determines its statistics delta. -/
theorem geocode_cases (svc : GeoService) (postal address : Cell) (country : Option String) :
    (geocode svc postal address country = Except.error ()
      ∧ ¬country = some "MALAYSIA" ∧ normalize_postal_key postal = Except.error ())
    ∨ (∃ la lo, geocode svc postal address country
        = Except.ok ((some la, some lo, "postal_code"),
            { svc.geocode_stats with
              postal_matches := svc.geocode_stats.postal_matches + 1 }))
    ∨ (∃ la lo, geocode svc postal address country
        = Except.ok ((some la, some lo, "address"),
            { svc.geocode_stats with api_calls := svc.geocode_stats.api_calls + 1 }))
    ∨ geocode svc postal address country
        = Except.ok ((none, none, "failed"), svc.geocode_stats)
    ∨ geocode svc postal address country
        = Except.ok ((none, none, "failed"),
            ⟨svc.geocode_stats.postal_matches, svc.geocode_stats.api_calls + 1,
              svc.geocode_stats.failures + 1⟩) := by
  obtain ⟨u, hgl, lkp, r, st0⟩ := svc
  by_cases hc : country = some "MALAYSIA"
  · subst hc
    cases u with
    | false => exact Or.inr (Or.inr (Or.inr (Or.inl rfl)))
    | true =>
      rcases gba_cases ⟨true, hgl, lkp, r, st0⟩ address (some "MALAYSIA") with
        h | ⟨la, lo, h⟩ | h
      · exact Or.inr (Or.inr (Or.inr (Or.inl (by simp [geocode, h]))))
      · exact Or.inr (Or.inr (Or.inl ⟨la, lo, by simp [geocode, h]⟩))
      · exact Or.inr (Or.inr (Or.inr (Or.inr (by simp [geocode, h]))))
  · rcases gbp_cases ⟨u, hgl, lkp, r, st0⟩ postal with ⟨h, hn⟩ | h | ⟨la, lo, h⟩
    · exact Or.inl ⟨by simp [geocode, hc, h], hc, hn⟩
    · cases u with
      | false => exact Or.inr (Or.inr (Or.inr (Or.inl (by simp [geocode, hc, h]))))
      | true =>
        rcases gba_cases ⟨true, hgl, lkp, r, st0⟩ address country with
          h2 | ⟨la, lo, h2⟩ | h2
        · exact Or.inr (Or.inr (Or.inr (Or.inl (by simp [geocode, hc, h, h2]))))
        · exact Or.inr (Or.inr (Or.inl ⟨la, lo, by simp [geocode, hc, h, h2]⟩))
        · exact Or.inr (Or.inr (Or.inr (Or.inr (by simp [geocode, hc, h, h2]))))
    · exact Or.inr (Or.inl ⟨la, lo, by simp [geocode, hc, h]⟩)

/-- With a remote geocoder that never finds anything, geocode_by_address
never yields coordinates. -/
theorem gba_fst_none (u hg : Bool) (lkp : List (String × Rat × Rat))
    (r : String → Option String → Except Unit (Option (Rat × Rat))) (st : GeoStats)
    (address : Cell) (country : Option String)
    (hr : ∀ q reg, r q reg = Except.ok none) :
    (geocode_by_address ⟨u, hg, lkp, r, st⟩ address country).1 = (none, none) := by
  cases address with
  | none => rfl
  | some a =>
    simp only [geocode_by_address]
    split
    · rfl
    · simp [hr]

/-! Fail-fast lemmas for the panel-sheet loop. -/

/-- Once a sheet in the loop fails, the sheets after it are irrelevant:
the loop result does not depend on them. -/
theorem processPanels_post_indep (tids : List TKey) (env : GeoEnv) :
    ∀ (pre : List (String × Frame)) (nm : String) (f : Frame) (msg : String),
      transform_sheet nm f tids env = Except.error msg →
      ∀ post post', processPanels tids env (pre ++ (nm, f) :: post)
        = processPanels tids env (pre ++ (nm, f) :: post')
  | [], nm, f, msg, h, post, post' => by
    simp only [List.nil_append, processPanels, h]
  | (nm0, f0) :: pre, nm, f, msg, h, post, post' => by
    simp only [List.cons_append, List.append_eq, processPanels]
    cases transform_sheet nm0 f0 tids env with
    | error m0 => rfl
    | ok res0 =>
      rw [processPanels_post_indep tids env pre nm f msg h post post']

/-- When every sheet before the failing one succeeds, the loop returns
exactly the failing sheet's name and message. -/
theorem processPanels_failfast (tids : List TKey) (env : GeoEnv) :
    ∀ (pre : List (String × Frame)) (nm : String) (f : Frame) (msg : String)
      (outs : List SheetOutput),
      processPanels tids env pre = Except.ok outs →
      transform_sheet nm f tids env = Except.error msg →
      ∀ post, processPanels tids env (pre ++ (nm, f) :: post) = Except.error (nm, msg)
  | [], nm, f, msg, outs, hpre, h, post => by
    simp only [List.nil_append, processPanels, h]
  | (nm0, f0) :: pre, nm, f, msg, outs, hpre, h, post => by
    simp only [processPanels] at hpre
    simp only [List.cons_append, List.append_eq, processPanels]
    cases h0 : transform_sheet nm0 f0 tids env with
    | error m0 =>
      rw [h0] at hpre
      exact absurd hpre (by simp)
    | ok res0 =>
      rw [h0] at hpre
      simp only at hpre ⊢
      cases hrec : processPanels tids env pre with
      | error e =>
        rw [hrec] at hpre
        exact absurd hpre (by simp)
      | ok more =>
        rw [processPanels_failfast tids env pre nm f msg more hrec h post]

end ET

/-! The claims.  Each claim has one theorem; a corrected claim also has a
closed counterexample refuting the claim as stated, and theorems with
hypotheses have a closed witness instantiating them. -/

/-- C8 counterexample: the specification says the string none normalizes
to an absent value, but normalize_code returns it unchanged. -/
theorem C8_counterexample :
    ET.normalize_code (some "none") = some "none"
    ∧ ET.normalize_code (some "none") ≠ none := by decide

/-- C8 (amended): normalize_code strips a trailing .0 artifact from
numeric-looking codes, and blank and nan inputs (and a missing value)
normalize to an absent value; the string none, however, is returned
unchanged rather than normalized to an absent value. -/
theorem C8_normalize_code_amended :
    (∀ s : String, ET.pyStrip s = "" → ET.normalize_code (some s) = none)
    ∧ (∀ s : String, ET.pyLower (ET.pyStrip s) = "nan" → ET.normalize_code (some s) = none)
    ∧ ET.normalize_code none = none
    ∧ ET.normalize_code (some "40088.0") = some "40088"
    ∧ ET.normalize_code (some "518180.0") = some "518180"
    ∧ ET.normalize_code (some "none") = some "none" := by
  refine ⟨?_, ?_, rfl, by decide, by decide, by decide⟩
  · intro s h
    simp only [ET.normalize_code]
    rw [h]
    decide
  · intro s h
    simp only [ET.normalize_code]
    rw [h]
    simp

/-- Witness for C8: the amended theorem applied to a blank string and a
mixed-case nan artifact. -/
theorem C8_witness :
    ET.normalize_code (some "   ") = none ∧ ET.normalize_code (some " NaN ") = none :=
  ⟨C8_normalize_code_amended.1 "   " (by decide),
   C8_normalize_code_amended.2.1 " NaN " (by decide)⟩

/-- C7: extract_postal_code with country SINGAPORE returns the six digits
after the SINGAPORE token when present and otherwise the last standalone
six-digit run, and with country MALAYSIA evaluates the ordered pattern
cascade returning the first match of the first pattern that has one; the
two example addresses of the specification evaluate as stated. -/
theorem C7_extract_postal_code :
    ET.extract_postal_code (some "BLK 1 ROAD SINGAPORE 123456") (some "SINGAPORE")
        = some "123456"
    ∧ ET.extract_postal_code (some "81300 SKUDAI, JOHOR") (some "MALAYSIA") = some "81300"
    ∧ (∀ a : String, ET.extract_postal_code (some a) (some "SINGAPORE")
        = (match ET.searchSingaporeSix (ET.pyStrip a).toList with
           | some g => some g
           | none => (ET.standaloneRuns 6 (ET.pyStrip a)).getLast?))
    ∧ (∀ a : String, ET.extract_postal_code (some a) (some "MALAYSIA")
        = ET.myPostalPatterns.findSome? (fun p => p (ET.pyStrip a))) := by
  refine ⟨by decide, by decide, fun a => rfl, fun a => rfl⟩

/-- C1 counterexample: a row whose postal code does not normalize (an
unextractable postal) is retained even when the code-only key
(code, absent) is in the termination set, whereas the claim says its
normalized pair (code, absent) being in the set removes it. -/
theorem C1_counterexample :
    ET.C1_spec_removal [("40088", none)] (some "40088") none = true
    ∧ ET.is_terminated_row [("40088", none)] (some "40088") none = false := by decide

/-- C1 (amended): a panel row is removed iff BOTH its normalized provider
code and its normalized postal code are present and the exact pair or the
code-only fallback key is in the termination set; a row whose code or
postal normalizes to an absent value is always retained.  The second
conjunct ties the row predicate to the mask the transform_sheet
termination scan applies. -/
theorem C1_termination_filter_amended :
    (∀ (tids : List ET.TKey) (codeCell postalCell : ET.Cell),
      ET.is_terminated_row tids codeCell postalCell = true
        ↔ ∃ pc po, ET.normalize_code codeCell = some pc
            ∧ ET.normalize_code postalCell = some po
            ∧ ((pc, some po) ∈ tids ∨ (pc, (none : Option String)) ∈ tids))
    ∧ (∀ (tids : List ET.TKey) (pairs : List (ET.Cell × ET.Cell)),
        (ET.terminationScan tids pairs).1
          = pairs.map (fun p => ET.is_terminated_row tids p.1 p.2)) := by
  constructor
  · intro tids codeCell postalCell
    unfold ET.is_terminated_row
    cases h1 : ET.normalize_code codeCell with
    | none => simp
    | some pc =>
      cases h2 : ET.normalize_code postalCell with
      | none => simp
      | some po =>
        simp [List.contains, List.elem_iff]
  · intro tids pairs
    unfold ET.terminationScan
    rw [ET.terminationScan_mask tids pairs [] []]
    simp

/-- C2 counterexample: map_columns binds both region and area to the one
raw column state (a column referenced by two canonical fields), and
phase 2 rebinds sat_simple away from the binding phase 1 established. -/
theorem C2_counterexample :
    ET.cmLookup (ET.map_columns ["state"]) "region" = some "state"
    ∧ ET.cmLookup (ET.map_columns ["state"]) "area" = some "state"
    ∧ ET.cmLookup (ET.phase1 (ET.cleanDict ["sat", "mon to fri", "unnamed: 2"])) "sat_simple"
        = some "sat"
    ∧ ET.cmLookup (ET.map_columns ["sat", "mon to fri", "unnamed: 2"]) "sat_simple"
        = some "unnamed: 2" :=
  ⟨rfl, rfl, rfl, rfl⟩

/-- C2 (amended): the HeaderMap binds each canonical key at most once
(phase 1 keys are duplicate-free), phases 3 and 4 only fill keys not
already resolved (they preserve every existing binding), and phase 2
preserves every key except the three sequential keys sat_simple,
sun_simple and holiday_simple, which it may rebind; a raw column may be
referenced by more than one canonical key. -/
theorem C2_map_columns_amended :
    (∀ d : ET.CMap, ((ET.phase1 d).map Prod.fst).Nodup)
    ∧ (∀ (cols : List String) (m : ET.CMap) (k : String),
        k ≠ "sat_simple" → k ≠ "sun_simple" → k ≠ "holiday_simple" →
        ET.cmLookup (ET.phase2 cols m) k = ET.cmLookup m k)
    ∧ (∀ (d m : ET.CMap) (k v : String),
        ET.cmLookup m k = some v → ET.cmLookup (ET.phase3 d m) k = some v)
    ∧ (∀ (d m : ET.CMap) (k v : String),
        ET.cmLookup m k = some v → ET.cmLookup (ET.phase4 d m) k = some v) :=
  ⟨ET.phase1_keys_nodup, ET.phase2_preserve, ET.phase3_preserve, ET.phase4_preserve⟩

/-- Witness for C2: the amended theorem applied to concrete maps. -/
theorem C2_witness :
    ET.cmLookup (ET.phase2 ["a"] [("clinic_id", "a")]) "clinic_id"
        = ET.cmLookup [("clinic_id", "a")] "clinic_id"
    ∧ ET.cmLookup (ET.phase3 (ET.cleanDict ["state"]) [("region", "state")]) "region"
        = some "state"
    ∧ ET.cmLookup (ET.phase4 (ET.cleanDict ["state"]) [("remarks", "x")]) "remarks"
        = some "x" :=
  ⟨C2_map_columns_amended.2.1 ["a"] [("clinic_id", "a")] "clinic_id"
      (by decide) (by decide) (by decide),
   C2_map_columns_amended.2.2.1 (ET.cleanDict ["state"]) [("region", "state")]
      "region" "state" rfl,
   C2_map_columns_amended.2.2.2 (ET.cleanDict ["state"]) [("remarks", "x")]
      "remarks" "x" rfl⟩

/-- C3: a panel sheet that resolves no clinic_name column even after
positional inference is a hard error carrying the descriptive message of
the source, the panel loop is fail-fast (a failing sheet determines the
result by its name and message, and the sheets after it never influence
the outcome once every sheet before it succeeded), and
transform_excel_multi_sheet reports the workbook-level failure naming the
failing sheet. -/
theorem C3_clinic_name_fail_fast :
    (∀ (sheetName : String) (frame : ET.Frame) (tids : List ET.TKey) (env : ET.GeoEnv),
      ET.cmMem (ET.map_columns (frame.columns.map ET.pyStrip)) "clinic_name" = false →
      ET.cmMem (ET.infer_columns_from_data (frame.columns.map ET.pyStrip)) "clinic_name"
          = false →
      ET.transform_sheet sheetName frame tids env
        = Except.error ("Error transforming sheet " ++ sheetName ++ ": Sheet '"
            ++ sheetName ++ "' missing required 'clinic name' column after inference attempt"))
    ∧ (∀ (tids : List ET.TKey) (env : ET.GeoEnv) (pre : List (String × ET.Frame))
        (nm : String) (f : ET.Frame) (msg : String),
        ET.transform_sheet nm f tids env = Except.error msg →
        (∀ post post', ET.processPanels tids env (pre ++ (nm, f) :: post)
            = ET.processPanels tids env (pre ++ (nm, f) :: post'))
        ∧ (∀ (outs : List ET.SheetOutput),
            ET.processPanels tids env pre = Except.ok outs →
            ∀ post, ET.processPanels tids env (pre ++ (nm, f) :: post)
              = Except.error (nm, msg)))
    ∧ (∀ (wb : List (String × ET.Frame)) (env : ET.GeoEnv) (nm msg : String),
        ET.processPanels
            (ET.extract_terminated_clinic_ids wb (ET.classify_sheets (wb.map Prod.fst)).2)
            env
            (wb.filter (fun p => (ET.classify_sheets (wb.map Prod.fst)).1.contains p.1))
          = Except.error (nm, msg) →
        ET.transform_excel_multi_sheet wb env
          = ET.MultiResult.failure ("Failed to process sheet '" ++ nm ++ "': " ++ msg)) := by
  refine ⟨?_, ?_, ?_⟩
  · intro sheetName frame tids env h1 h2
    simp only [ET.transform_sheet, h1, h2, Bool.false_eq_true, if_false]
  · intro tids env pre nm f msg h
    exact ⟨fun post post' => ET.processPanels_post_indep tids env pre nm f msg h post post',
           fun outs hpre post =>
             ET.processPanels_failfast tids env pre nm f msg outs hpre h post⟩
  · intro wb env nm msg h
    simp only [ET.transform_excel_multi_sheet, h]

/-- Witness for C3: a two-column sheet with no name-like header fails
with the message of the source. -/
theorem C3_witness :
    ET.transform_sheet "Mystery GP" ⟨["X1", "X2"], [[some "a", some "b"]]⟩ []
        ⟨false, false, [], ET.stubNone⟩
      = Except.error "Error transforming sheet Mystery GP: Sheet 'Mystery GP' missing required 'clinic name' column after inference attempt" :=
  C3_clinic_name_fail_fast.1 "Mystery GP" ⟨["X1", "X2"], [[some "a", some "b"]]⟩ []
    ⟨false, false, [], ET.stubNone⟩ (by decide) (by decide)

/-- C4: a geocode request whose country is not MALAYSIA and whose
normalized postal code hits the local lookup table returns the table's
coordinates with method postal_code and leaves api_calls untouched
(postal_matches is the only counter bumped); a MALAYSIA request ignores
both the postal code and the lookup table entirely, returns failed with
untouched counters when the API is disabled, and returns failed whenever
the remote geocoder finds nothing. -/
theorem C4_geocode_strategy :
    (∀ (svc : ET.GeoService) (postal address : ET.Cell) (country : Option String)
        (key : String) (la lo : Rat),
      ¬country = some "MALAYSIA" →
      ET.normalize_postal_key postal = Except.ok (some key) →
      ET.lookupCoord svc.postal_code_lookup key = some (la, lo) →
      ET.geocode svc postal address country
        = Except.ok ((some la, some lo, "postal_code"),
            { svc.geocode_stats with
              postal_matches := svc.geocode_stats.postal_matches + 1 }))
    ∧ (∀ (u hg : Bool) (lkp lkp' : List (String × Rat × Rat))
        (r : String → Option String → Except Unit (Option (Rat × Rat)))
        (st : ET.GeoStats) (postal postal' address : ET.Cell),
        ET.geocode ⟨u, hg, lkp, r, st⟩ postal address (some "MALAYSIA")
          = ET.geocode ⟨u, hg, lkp', r, st⟩ postal' address (some "MALAYSIA"))
    ∧ (∀ (svc : ET.GeoService) (postal address : ET.Cell),
        svc.use_google_api = false →
        ET.geocode svc postal address (some "MALAYSIA")
          = Except.ok ((none, none, "failed"), svc.geocode_stats))
    ∧ (∀ (u hg : Bool) (lkp : List (String × Rat × Rat)) (st : ET.GeoStats)
        (r : String → Option String → Except Unit (Option (Rat × Rat)))
        (postal address : ET.Cell),
        (∀ q reg, r q reg = Except.ok none) →
        ∃ st2, ET.geocode ⟨u, hg, lkp, r, st⟩ postal address (some "MALAYSIA")
          = Except.ok ((none, none, "failed"), st2)) := by
  refine ⟨?_, ?_, ?_, ?_⟩
  · intro svc postal address country key la lo hc hn hl
    simp only [ET.geocode, ET.geocode_by_postal_code, hc, hn, hl]
    simp
  · intro u hg lkp lkp' r st postal postal' address
    cases u with
    | false => rfl
    | true =>
      have hb := ET.gba_lookup_free true hg lkp lkp' r st address (some "MALAYSIA")
      simp only [ET.geocode, hb]
      simp
  · intro svc postal address hu
    obtain ⟨u, hg, lkp, r, st0⟩ := svc
    cases u with
    | true => simp at hu
    | false => rfl
  · intro u hg lkp st r postal address hr
    cases u with
    | false => exact ⟨st, rfl⟩
    | true =>
      rcases ET.gba_cases ⟨true, hg, lkp, r, st⟩ address (some "MALAYSIA") with
        h | ⟨la, lo, h⟩ | h
      · exact ⟨st, by simp [ET.geocode, h]⟩
      · have h2 := ET.gba_fst_none true hg lkp r st address (some "MALAYSIA") hr
        rw [h] at h2
        exact absurd h2 (by simp)
      · exact ⟨⟨st.postal_matches, st.api_calls + 1, st.failures + 1⟩,
          by simp [ET.geocode, h]⟩

/-- Witness for C4: a lookup hit with the API on returns the stored
coordinates without touching api_calls, and a Malaysian request with the
API off fails with untouched counters. -/
theorem C4_witness :
    ET.geocode ⟨true, true, [("520123", (5, 6))], ET.stubNone, ⟨0, 0, 0⟩⟩
        (some "520123") (some "2 ROAD") none
      = Except.ok ((some 5, some 6, "postal_code"), ⟨1, 0, 0⟩)
    ∧ ET.geocode ⟨false, true, [("520123", (5, 6))], ET.stubNone, ⟨0, 0, 0⟩⟩
        (some "520123") (some "2 ROAD") (some "MALAYSIA")
      = Except.ok ((none, none, "failed"), ⟨0, 0, 0⟩) :=
  ⟨C4_geocode_strategy.1 ⟨true, true, [("520123", (5, 6))], ET.stubNone, ⟨0, 0, 0⟩⟩
      (some "520123") (some "2 ROAD") none "520123" 5 6 (by decide) rfl rfl,
   C4_geocode_strategy.2.2.1 ⟨false, true, [("520123", (5, 6))], ET.stubNone, ⟨0, 0, 0⟩⟩
      (some "520123") (some "2 ROAD") rfl⟩

/-- C5 counterexample: with the API disabled and no postal code, geocode
returns method failed yet leaves all three counters untouched, so not
every call (and in particular not every failed call) increments a
counter. -/
theorem C5_counterexample :
    ET.geocode ⟨false, false, [], ET.stubNone, ⟨0, 0, 0⟩⟩ none none none
      = Except.ok ((none, none, "failed"), ⟨0, 0, 0⟩)
    ∧ ET.get_stats ⟨false, false, [], ET.stubNone, ⟨0, 0, 0⟩⟩ = ⟨0, 0, 0⟩ :=
  ⟨rfl, rfl⟩

/-- C5 (amended): the statistics delta of a geocode call is determined by
its method: postal_code bumps exactly postal_matches, address bumps
exactly api_calls, and failed either bumps api_calls and failures
together (a remote attempt that missed or raised) or touches no counter
at all (no remote attempt was made). -/
theorem C5_geocode_stats_amended :
    ∀ (svc : ET.GeoService) (postal address : ET.Cell) (country : Option String)
      (la lo : Option Rat) (m : String) (st : ET.GeoStats),
      ET.geocode svc postal address country = Except.ok ((la, lo, m), st) →
      (m = "postal_code" →
        st = { svc.geocode_stats with
               postal_matches := svc.geocode_stats.postal_matches + 1 })
      ∧ (m = "address" →
        st = { svc.geocode_stats with api_calls := svc.geocode_stats.api_calls + 1 })
      ∧ (m = "failed" →
        st = svc.geocode_stats
        ∨ st = ⟨svc.geocode_stats.postal_matches, svc.geocode_stats.api_calls + 1,
                svc.geocode_stats.failures + 1⟩) := by
  intro svc postal address country la lo m st hgeq
  rcases ET.geocode_cases svc postal address country with
    ⟨h, _, _⟩ | ⟨la2, lo2, h⟩ | ⟨la2, lo2, h⟩ | h | h
  · rw [h] at hgeq
    exact absurd hgeq (by simp)
  · rw [h] at hgeq
    simp only [Except.ok.injEq, Prod.mk.injEq] at hgeq
    obtain ⟨⟨hla, hlo, hm⟩, hst⟩ := hgeq
    subst hm
    subst hst
    exact ⟨fun _ => rfl, fun hx => absurd hx (by decide), fun hx => absurd hx (by decide)⟩
  · rw [h] at hgeq
    simp only [Except.ok.injEq, Prod.mk.injEq] at hgeq
    obtain ⟨⟨hla, hlo, hm⟩, hst⟩ := hgeq
    subst hm
    subst hst
    exact ⟨fun hx => absurd hx (by decide), fun _ => rfl, fun hx => absurd hx (by decide)⟩
  · rw [h] at hgeq
    simp only [Except.ok.injEq, Prod.mk.injEq] at hgeq
    obtain ⟨⟨hla, hlo, hm⟩, hst⟩ := hgeq
    subst hm
    subst hst
    exact ⟨fun hx => absurd hx (by decide), fun hx => absurd hx (by decide),
      fun _ => Or.inl rfl⟩
  · rw [h] at hgeq
    simp only [Except.ok.injEq, Prod.mk.injEq] at hgeq
    obtain ⟨⟨hla, hlo, hm⟩, hst⟩ := hgeq
    subst hm
    subst hst
    exact ⟨fun hx => absurd hx (by decide), fun hx => absurd hx (by decide),
      fun _ => Or.inr rfl⟩

/-- Witness for C5: a postal hit bumps exactly postal_matches. -/
theorem C5_witness :
    ET.GeoStats.mk 1 0 0
      = { ET.GeoStats.mk 0 0 0 with
          postal_matches := (ET.GeoStats.mk 0 0 0).postal_matches + 1 } :=
  (C5_geocode_stats_amended ⟨false, false, [("238459", (1, 2))], ET.stubNone, ⟨0, 0, 0⟩⟩
      (some "238459") none none (some 1) (some 2) "postal_code" ⟨1, 0, 0⟩ rfl).1 rfl

/-- C6 counterexample: with a weekday column and a remarks column mapped,
the fixture remarks give the claimed weekday hours, but the Saturday and
Sunday results are CLOSED rather than the claimed 0900-1200: with no
Saturday column mapped, the column strategies produce the default CLOSED,
which is not truly empty, so the remarks fallback never fires for those
days. -/
theorem C6_counterexample :
    ET.combine_operating_hours_flexible ["WD", "REMARKS"]
        [[some "", some ET.remarksFixture]]
        [("mon_fri_am", "WD"), ("remarks", "REMARKS")] "weekday"
      = ["0900-1230,1400-1600"]
    ∧ ET.combine_operating_hours_flexible ["WD", "REMARKS"]
        [[some "", some ET.remarksFixture]]
        [("mon_fri_am", "WD"), ("remarks", "REMARKS")] "saturday"
      = ["CLOSED"]
    ∧ ET.combine_operating_hours_flexible ["WD", "REMARKS"]
        [[some "", some ET.remarksFixture]]
        [("mon_fri_am", "WD"), ("remarks", "REMARKS")] "sunday"
      = ["CLOSED"] := ⟨rfl, rfl, rfl⟩

/-- C6 (amended): the remarks fallback fires exactly on a truly-empty
column result (an explicit CLOSED, not being truly empty, suppresses it);
the fixture remarks with an empty weekday cell give the claimed weekday
hours, and the claimed Saturday and Sunday values additionally require a
mapped (empty) simple column for those days. -/
theorem C6_hours_fallback_amended :
    (∀ (cols : List String) (row : List ET.Cell) (colMap : ET.CMap) (dayType : String)
        (ck : String × String × String) (sk : String),
      ET.dayTypeKeys dayType = some (ck, sk) →
      ET.is_truly_empty (some (ET.hoursFromColumns cols row colMap ck sk)) = false →
      ET.combineRow cols row colMap dayType = ET.hoursFromColumns cols row colMap ck sk)
    ∧ ET.is_truly_empty (some "CLOSED") = false
    ∧ ET.combine_operating_hours_flexible ["WD", "SAT", "SUN", "REMARKS"]
        [[some "", some "", some "", some ET.remarksFixture]]
        [("mon_fri_am", "WD"), ("sat_simple", "SAT"), ("sun_simple", "SUN"),
         ("remarks", "REMARKS")] "weekday"
      = ["0900-1230,1400-1600"]
    ∧ ET.combine_operating_hours_flexible ["WD", "SAT", "SUN", "REMARKS"]
        [[some "", some "", some "", some ET.remarksFixture]]
        [("mon_fri_am", "WD"), ("sat_simple", "SAT"), ("sun_simple", "SUN"),
         ("remarks", "REMARKS")] "saturday"
      = ["0900-1200"]
    ∧ ET.combine_operating_hours_flexible ["WD", "SAT", "SUN", "REMARKS"]
        [[some "", some "", some "", some ET.remarksFixture]]
        [("mon_fri_am", "WD"), ("sat_simple", "SAT"), ("sun_simple", "SUN"),
         ("remarks", "REMARKS")] "sunday"
      = ["0900-1200"] := by
  refine ⟨?_, rfl, rfl, rfl, rfl⟩
  · intro cols row colMap dayType ck sk hdk he
    simp only [ET.combineRow, hdk]
    simp [he]

/-- Witness for C6: an explicit Saturday value suppresses the fallback
and is returned as the column result. -/
theorem C6_witness :
    ET.combineRow ["SAT"] [some "0930-1300"] [("sat_simple", "SAT")] "saturday"
      = ET.hoursFromColumns ["SAT"] [some "0930-1300"] [("sat_simple", "SAT")]
          ("sat_am", "sat_pm", "sat_night") "sat_simple" :=
  C6_hours_fallback_amended.1 ["SAT"] [some "0930-1300"] [("sat_simple", "SAT")]
    "saturday" ("sat_am", "sat_pm", "sat_night") "sat_simple" rfl (by decide)

/-- C9: one workbook transformation is a deterministic function of the
workbook, the reference dataset and the stubbed remote geocoder: running
it a second time against the process state the first run left behind
yields the same result, and the lookup cache is stable. -/
theorem C9_workbook_two_run :
    ∀ (cache : Option (List (String × Rat × Rat))) (ds : List ET.RefRow)
      (wb : List (String × ET.Frame)) (u g : Bool)
      (r : String → Option String → Except Unit (Option (Rat × Rat))),
      (ET.runWorkbook (ET.runWorkbook cache ds wb u g r).2 ds wb u g r).1
        = (ET.runWorkbook cache ds wb u g r).1
      ∧ (ET.runWorkbook (ET.runWorkbook cache ds wb u g r).2 ds wb u g r).2
        = (ET.runWorkbook cache ds wb u g r).2 := by
  intro cache ds wb u g r
  cases cache <;> exact ⟨rfl, rfl⟩

/-- C10 counterexample: the postal string inf parses to an infinite
float, int() of which raises an OverflowError that the except clause of
geocode_by_postal_code does not catch, so geocode raises instead of
returning a triple. -/
theorem C10_counterexample :
    ET.geocode ⟨false, false, [], ET.stubNone, ⟨0, 0, 0⟩⟩ (some "inf") none none
      = Except.error () := rfl

/-- C10 (amended): geocode raises exactly when the country is not
MALAYSIA and the postal normalization overflows (an infinite float);
otherwise it always returns a triple.  A non-numeric postal such as
ABC-123 normalizes to no key (the ValueError is caught), an S prefix is
stripped before conversion, and a remote-geocoder exception is caught and
counted in api_calls and failures with a (None, None) result. -/
theorem C10_geocode_safety_amended :
    (∀ (svc : ET.GeoService) (postal address : ET.Cell) (country : Option String),
      ET.geocode svc postal address country = Except.error ()
        ↔ ¬country = some "MALAYSIA"
          ∧ ET.normalize_postal_key postal = Except.error ())
    ∧ ET.normalize_postal_key (some "ABC-123") = Except.ok none
    ∧ ET.normalize_postal_key (some "S123456") = Except.ok (some "123456")
    ∧ (∀ (u : Bool) (lkp : List (String × Rat × Rat)) (st : ET.GeoStats)
        (a : String) (country : Option String),
        (a = "" || ET.pyStrip a = "" || ET.pyStrip a = "None" || ET.pyStrip a = "nan")
            = false →
        ET.geocode_by_address ⟨u, true, lkp, ET.stubRaise, st⟩ (some a) country
          = ((none, none), ⟨st.postal_matches, st.api_calls + 1, st.failures + 1⟩)) := by
  refine ⟨?_, rfl, rfl, ?_⟩
  · intro svc postal address country
    constructor
    · intro hge
      rcases ET.geocode_cases svc postal address country with
        ⟨h, hc, hn⟩ | ⟨la, lo, h⟩ | ⟨la, lo, h⟩ | h | h
      · exact ⟨hc, hn⟩
      · rw [h] at hge; exact absurd hge (by simp)
      · rw [h] at hge; exact absurd hge (by simp)
      · rw [h] at hge; exact absurd hge (by simp)
      · rw [h] at hge; exact absurd hge (by simp)
    · rintro ⟨hc, hn⟩
      simp [ET.geocode, ET.geocode_by_postal_code, hc, hn]
  · intro u lkp st a country hcond
    simp only [Bool.or_eq_false_iff] at hcond
    obtain ⟨⟨⟨h1, h2⟩, h3⟩, h4⟩ := hcond
    simp [ET.geocode_by_address, ET.stubRaise, h1, h2, h3, h4]

/-- Witness for C10: a raising remote geocoder is caught, bumping
api_calls and failures and yielding no coordinates. -/
theorem C10_witness :
    ET.geocode_by_address ⟨true, true, [], ET.stubRaise, ⟨0, 0, 0⟩⟩ (some "2 ROAD") none
      = ((none, none), ⟨0, 1, 1⟩) :=
  C10_geocode_safety_amended.2.2.2 true [] ⟨0, 0, 0⟩ "2 ROAD" none (by decide)
